import Mathlib

/-!
Shallow embedding of the per-frame scene synchronization engine of
`src/auxiliary/src/VTKReporter.cpp` (class `VTKReporterRep` and its public
wrapper `VTKReporter`).

Modelling conventions:
* `Real` (C++ double) is modelled as `ℚ`; all arithmetic is exact.
* The VTK backend (actors, renderer scene, render window) is modelled by a
  resource-accounting `Backend` store: `vtkActor::New` allocates an id,
  `Delete` records a release (recorded again on a double release),
  `AddActor`/`RemoveActor` edit the renderer's actor list.
* A `vtkActor`'s visual state is the part of the real actor the reporter
  touches: position, the orientation operations applied since the last
  `SetOrientation(0,0,0)` reset, the property fields, and the mapper input.
* C++ exceptions do not roll back heap state, so fallible operations return
  `Except (VTKError × World) World`: the error case carries the world as it
  stands at the throw point.
* An out-of-range `std::vector` access (`bodies[bodyNum]` with an invalid
  `MobilizedBodyId`) has no defined C++ result; it is modelled as a raised
  range error, which is the behaviour the surrounding code attributes to it.
-/

namespace Simbody

/-- A 3-vector of exact rationals (SimTK `Vec3`). -/
structure Vec3 where
  x : ℚ
  y : ℚ
  z : ℚ
  deriving DecidableEq, Repr

instance : Add Vec3 := ⟨fun a b => ⟨a.x + b.x, a.y + b.y, a.z + b.z⟩⟩

/-- A 4-vector (SimTK `Vec4`), used for the angle+axis form of a rotation:
`w` is the angle, `(x, y, z)` the axis. -/
structure Vec4 where
  w : ℚ
  x : ℚ
  y : ℚ
  z : ℚ
  deriving DecidableEq, Repr

/-- A 3x3 matrix of rationals, stored by rows (the rotation part of a
SimTK `Transform`). -/
structure Mat33 where
  r0 : Vec3
  r1 : Vec3
  r2 : Vec3
  deriving DecidableEq, Repr

def Vec3.dot (a b : Vec3) : ℚ := a.x * b.x + a.y * b.y + a.z * b.z

def Mat33.mulVec (m : Mat33) (v : Vec3) : Vec3 :=
  ⟨m.r0.dot v, m.r1.dot v, m.r2.dot v⟩

def Mat33.mul (m n : Mat33) : Mat33 :=
  ⟨⟨m.r0.dot ⟨n.r0.x, n.r1.x, n.r2.x⟩, m.r0.dot ⟨n.r0.y, n.r1.y, n.r2.y⟩, m.r0.dot ⟨n.r0.z, n.r1.z, n.r2.z⟩⟩,
   ⟨m.r1.dot ⟨n.r0.x, n.r1.x, n.r2.x⟩, m.r1.dot ⟨n.r0.y, n.r1.y, n.r2.y⟩, m.r1.dot ⟨n.r0.z, n.r1.z, n.r2.z⟩⟩,
   ⟨m.r2.dot ⟨n.r0.x, n.r1.x, n.r2.x⟩, m.r2.dot ⟨n.r0.y, n.r1.y, n.r2.y⟩, m.r2.dot ⟨n.r0.z, n.r1.z, n.r2.z⟩⟩⟩

def Mat33.identity : Mat33 := ⟨⟨1, 0, 0⟩, ⟨0, 1, 0⟩, ⟨0, 0, 1⟩⟩

/-- A rigid transform (SimTK `Transform`): rotation `rot` (`R()`) plus
translation `trans` (`T()`). -/
structure Transform where
  rot : Mat33
  trans : Vec3
  deriving DecidableEq, Repr

/-- `Transform` applied to a point: `X * p = R * p + T`. -/
def Transform.apply (X : Transform) (p : Vec3) : Vec3 := X.rot.mulVec p + X.trans

/-- `Transform` composition `X * Y`. -/
def Transform.compose (X Y : Transform) : Transform :=
  ⟨X.rot.mul Y.rot, X.rot.mulVec Y.trans + X.trans⟩

def Transform.identity : Transform := ⟨Mat33.identity, ⟨0, 0, 0⟩⟩

/-- `SimTK_RADIAN_TO_DEGREE` (`180/pi`).  The true value is transcendental and
not representable in exact arithmetic; the claims depend only on the constant
being a fixed nonzero scale factor, so a rational approximation is used. -/
def RadiansToDegrees : ℚ := 180 * 113 / 355

-- Colour constants from SimTKcommon used by VTKReporter.cpp.
def Black : Vec3 := ⟨0, 0, 0⟩
def Green : Vec3 := ⟨0, 1, 0⟩
def Red : Vec3 := ⟨1, 0, 0⟩
def Gray : Vec3 := ⟨1/2, 1/2, 1/2⟩

def DefaultGroundBodyColor : Vec3 := Green
def DefaultBaseBodyColor : Vec3 := Red
def DefaultBodyColor : Vec3 := Gray

/-- The geometric primitive carried by a `DecorativeGeometry`. -/
inductive GeomShape where
  | line (p1 p2 : Vec3)
  | sphere (radius : ℚ)
  | frame (axisLength : ℚ)
  | brick (halfLengths : Vec3)
  deriving DecidableEq, Repr

/-- SimTK `DecorativeGeometry` as the reporter consumes it: a shape, its own
embedded transform, the style fields, and the owning-body tag.  Following the
library (and section 9 of the design notes), "unset" is the sentinel `-1`:
an unset colour has first component `-1`, the other unset fields are `-1`. -/
structure DecorativeGeometry where
  shape : GeomShape
  transform : Transform
  color : Vec3
  opacity : ℚ
  lineThickness : ℚ
  representation : Int
  bodyId : Int
  deriving DecidableEq, Repr

/-- `DecorativeLine::setEndpoints` (rubber-band entries always hold lines). -/
def DecorativeGeometry.setEndpoints (g : DecorativeGeometry) (p1 p2 : Vec3) :
    DecorativeGeometry :=
  { g with shape := .line p1 p2 }

-- DecorativeGeometry::Representation values and the VTK draw-mode constants.
def DrawPoints : Int := 0
def DrawWireframe : Int := 1
def DrawSurface : Int := 2
def VTK_POINTS : Int := 0
def VTK_WIREFRAME : Int := 1
def VTK_SURFACE : Int := 2

/-- `VTKReporterRep::convertToVTKRepresentation`.  The `default:` branch of
the C++ switch asserts and (in a release build) leaves the initial `-1`. -/
def convertToVTKRepresentation (drawMode : Int) : Int :=
  if drawMode = DrawPoints then VTK_POINTS
  else if drawMode = DrawWireframe then VTK_WIREFRAME
  else if drawMode = DrawSurface then VTK_SURFACE
  else -1

/-- Result of `dgeom.implementGeometry(vgeom); vgeom.getVTKPolyData()`:
the polygonal data generated from the shape under the geometry's transform. -/
structure PolyData where
  shape : GeomShape
  transform : Transform
  deriving DecidableEq, Repr

def implementGeometry (g : DecorativeGeometry) : PolyData := ⟨g.shape, g.transform⟩

-- Style resolution ternaries, exactly as written inline in addDecoration,
-- addRubberBandLine and displayEphemeralGeometry.
def resolveColor (g : DecorativeGeometry) (fallback : Vec3) : Vec3 :=
  if g.color.x ≠ -1 then g.color else fallback

def resolveOpacity (g : DecorativeGeometry) : ℚ :=
  if g.opacity ≠ -1 then g.opacity else 1

def resolveLineWidth (g : DecorativeGeometry) : ℚ :=
  if g.lineThickness ≠ -1 then g.lineThickness else 1

def resolveRepresentation (g : DecorativeGeometry) : Int :=
  if g.representation ≠ -1 then g.representation else DrawSurface

/-- The state of one backend drawable proxy (`vtkActor`/`vtkProp3D`) as far as
the reporter manipulates it.  `orientationOps` records the `RotateWXYZ`
rotations applied since creation or the last `SetOrientation(0,0,0)` reset. -/
structure Actor where
  position : Vec3 := ⟨0, 0, 0⟩
  orientationOps : List Vec4 := []
  color : Vec3 := ⟨1, 1, 1⟩
  opacity : ℚ := 1
  lineWidth : ℚ := 1
  representation : Int := VTK_SURFACE
  mapperInput : Option PolyData := none
  deriving DecidableEq, Repr

/-- The resource-accounting backend: live actors keyed by allocation id, the
renderer's scene list, and the record of every `Delete` call.  A double
release shows up as a repeated entry in `deletions`. -/
structure Backend where
  nextId : Nat := 0
  live : List (Nat × Actor) := []
  scene : List Nat := []
  deletions : List Nat := []
  resetCameraCount : Nat := 0
  renderCount : Nat := 0
  deriving DecidableEq, Repr

/-- `vtkActor::New()`: allocate a fresh id with a default-initialised actor. -/
def vtkActorNew (be : Backend) : Nat × Backend :=
  (be.nextId, { be with nextId := be.nextId + 1, live := be.live ++ [(be.nextId, {})] })

def getActor (be : Backend) (aid : Nat) : Option Actor :=
  (be.live.find? (fun p => p.1 = aid)).map Prod.snd

def modifyActor (aid : Nat) (f : Actor → Actor) (be : Backend) : Backend :=
  { be with live := be.live.map (fun p => if p.1 = aid then (p.1, f p.2) else p) }

/-- `actor->Delete()`: release our reference.  The release is recorded even if
the actor is no longer live, so a double free is observable. -/
def deleteActor (aid : Nat) (be : Backend) : Backend :=
  { be with live := be.live.filter (fun p => p.1 ≠ aid), deletions := be.deletions ++ [aid] }

/-- `renderer->RemoveActor(actor)`. -/
def removeActor (aid : Nat) (be : Backend) : Backend :=
  { be with scene := be.scene.erase aid }

/-- `renderer->AddActor(actor)`. -/
def addActor (aid : Nat) (be : Backend) : Backend :=
  { be with scene := be.scene ++ [aid] }

/-- `renderer->ResetCamera()`. -/
def resetCameraB (be : Backend) : Backend :=
  { be with resetCameraCount := be.resetCameraCount + 1 }

/-- `renWin->Render()`. -/
def renderB (be : Backend) : Backend :=
  { be with renderCount := be.renderCount + 1 }

/-- `VTKReporterRep::PerBodyInfo`. -/
structure PerBodyInfo where
  aList : List Nat := []
  gList : List DecorativeGeometry := []
  defaultColorRGB : Vec3 := Black
  scale : ℚ := 1
  deriving DecidableEq, Repr

/-- `VTKReporterRep::PerDynamicGeomInfo`. -/
structure PerDynamicGeomInfo where
  actor : Nat
  line : DecorativeGeometry
  body1 : Int
  body2 : Int
  station1 : Vec3
  station2 : Vec3
  deriving DecidableEq, Repr

/-- The reporter's own state (`VTKReporterRep` fields).  `renWinLive` models
the `renWin` pointer being non-null: it is cleared by `deletePointers` (and on
the WM_QUIT path), after which `report` is a no-op. -/
structure VTKReporterRep where
  cameraNeedsToBeReset : Bool
  bodies : List PerBodyInfo
  dynamicGeom : List PerDynamicGeomInfo
  ephemeralGeometry : List DecorativeGeometry
  ephemeralActors : List Nat
  renWinLive : Bool
  deriving DecidableEq, Repr

/-- Reporter state paired with the backend store it drives. -/
structure World where
  rep : VTKReporterRep
  backend : Backend
  deriving DecidableEq, Repr

inductive VTKError where
  | outOfRangeBody (body : Int)
  deriving DecidableEq, Repr

/-- `bodies[b]`.  The C++ access is unchecked `std::vector::operator[]`: an
invalid id is undefined behavior in the source.  The `none` branch here (and
the error branch each caller derives from it) therefore marks the inputs on
which the source has no defined behavior — it is a modeling boundary, not
behavior of the program.  Every theorem below about the program's defined
behavior stays on the `some` branch, where this agrees with the source. -/
def getBody (r : VTKReporterRep) (b : Int) : Option PerBodyInfo :=
  if b < 0 then none else r.bodies.get? b.toNat

/-- The state object handed to `report`: the current transform of every
mobilized body (index = `MobilizedBodyId`, length = `getNBodies()`), the
stage the state is realized to (`getSystemStage()`), and the decorative
geometry `calcDecorativeGeometryAndAppend` contributes for each stage. -/
structure SimState where
  transforms : List Transform
  systemStage : Int
  decorativeGeometry : Int → List DecorativeGeometry

def SimState.nBodies (s : SimState) : Nat := s.transforms.length

/-- `matter.getMobilizedBody(b).getBodyTransform(s)`. -/
def SimState.getBodyTransform (s : SimState) (b : Int) : Option Transform :=
  if b < 0 then none else s.transforms.get? b.toNat

/-- `VTKReporterRep::resetCamera`: just sets the flag, consumed by `report`. -/
def resetCamera (w : World) : World :=
  { w with rep := { w.rep with cameraNeedsToBeReset := true } }

/-- `VTKReporterRep::setDefaultBodyColor`: `bodies[bodyNum].defaultColorRGB = rgb`. -/
def setDefaultBodyColor (bodyNum : Int) (rgb : Vec3) (w : World) :
    Except (VTKError × World) World :=
  match getBody w.rep bodyNum with
  | none => .error (.outOfRangeBody bodyNum, w)
  | some pb =>
    .ok { w with rep := { w.rep with
            bodies := w.rep.bodies.set bodyNum.toNat { pb with defaultColorRGB := rgb } } }

/-- `VTKReporterRep::getDefaultBodyColor`: `bodies[body].defaultColorRGB`. -/
def getDefaultBodyColor (w : World) (body : Int) : Except VTKError Vec3 :=
  match getBody w.rep body with
  | none => .error (.outOfRangeBody body)
  | some pb => .ok pb.defaultColorRGB

/-- `VTKReporterRep::setBodyScale`: `bodies[bodyNum].scale = scale`. -/
def setBodyScale (bodyNum : Int) (scale : ℚ) (w : World) :
    Except (VTKError × World) World :=
  match getBody w.rep bodyNum with
  | none => .error (.outOfRangeBody bodyNum, w)
  | some pb =>
    .ok { w with rep := { w.rep with
            bodies := w.rep.bodies.set bodyNum.toNat { pb with scale := scale } } }

/-- `VTKReporterRep::addDecoration`.  The actor is created before the
per-body lists are accessed, so on an invalid body id the error world already
holds the fresh (leaked) actor, mirroring the C++ evaluation order. -/
def addDecoration (body : Int) (X_GD : Transform) (g : DecorativeGeometry)
    (w : World) : Except (VTKError × World) World :=
  let (aid, be) := vtkActorNew w.backend
  match getBody w.rep body with
  | none => .error (.outOfRangeBody body, { w with backend := be })
  | some pb =>
    -- dgeom.setTransform(X_GD * dgeom.getTransform())
    let dgeom := { g with transform := X_GD.compose g.transform }
    let pb' := { pb with aList := pb.aList ++ [aid], gList := pb.gList ++ [dgeom] }
    let poly := implementGeometry dgeom
    let be := modifyActor aid (fun a =>
      { a with color := resolveColor dgeom pb.defaultColorRGB,
               opacity := resolveOpacity dgeom,
               lineWidth := resolveLineWidth dgeom,
               representation := convertToVTKRepresentation (resolveRepresentation dgeom),
               mapperInput := some poly }) be
    let be := addActor aid be
    .ok { rep := { w.rep with
                     bodies := w.rep.bodies.set body.toNat pb',
                     cameraNeedsToBeReset := true },
          backend := be }

/-- `VTKReporterRep::addRubberBandLine`.  One actor per entry; the mapper is
attached but its input is not set yet; the colour fallback is the fixed
neutral `Black`, not a body default. -/
def addRubberBandLine (b1 : Int) (station1 : Vec3) (b2 : Int) (station2 : Vec3)
    (g : DecorativeGeometry) (w : World) : World :=
  let (aid, be) := vtkActorNew w.backend
  let info : PerDynamicGeomInfo :=
    { actor := aid, line := g, body1 := b1, body2 := b2,
      station1 := station1, station2 := station2 }
  let be := modifyActor aid (fun a =>
    { a with color := resolveColor g Black,
             opacity := resolveOpacity g,
             lineWidth := resolveLineWidth g,
             representation := convertToVTKRepresentation (resolveRepresentation g) }) be
  let be := addActor aid be
  { rep := { w.rep with
               dynamicGeom := w.rep.dynamicGeom ++ [info],
               cameraNeedsToBeReset := true },
    backend := be }

/-- `VTKReporterRep::addEphemeralDecoration`: append to the pending queue. -/
def addEphemeralDecoration (g : DecorativeGeometry) (w : World) : World :=
  { w with rep := { w.rep with ephemeralGeometry := w.rep.ephemeralGeometry ++ [g] } }

/-- The actor update performed by `setConfiguration` for one proxy:
`SetPosition(T)`, then `SetOrientation(0,0,0)` (reset), then one
`RotateWXYZ(angle*RadiansToDegrees, axis)` with `(angle, axis)` =
`X_GB.R().convertToAngleAxis()`.  The library decomposition itself lives
outside this repository and is passed in as `aa`. -/
def applyConfiguration (aa : Mat33 → Vec4) (X_GB : Transform) (a : Actor) : Actor :=
  let av := aa X_GB.rot
  { a with position := X_GB.trans,
           orientationOps := [] ++ [⟨av.w * RadiansToDegrees, av.x, av.y, av.z⟩] }

/-- `VTKReporterRep::setConfiguration`: update every proxy in the body's
`aList`. -/
def setConfiguration (aa : Mat33 → Vec4) (bodyNum : Int) (X_GB : Transform)
    (w : World) : Except (VTKError × World) World :=
  match getBody w.rep bodyNum with
  | none => .error (.outOfRangeBody bodyNum, w)
  | some pb =>
    .ok { w with backend :=
            pb.aList.foldl (fun be aid => modifyActor aid (applyConfiguration aa X_GB) be) w.backend }

/-- `VTKReporterRep::setRubberBandLine`: store the new endpoints in the
entry's line, regenerate its poly data and push it into the entry's existing
actor's mapper. -/
def setRubberBandLine (dgeom : Nat) (p1 p2 : Vec3) (w : World) : World :=
  match w.rep.dynamicGeom.get? dgeom with
  | none => w
  | some info =>
    let line' := info.line.setEndpoints p1 p2
    let poly := implementGeometry line'
    let be := modifyActor info.actor (fun a => { a with mapperInput := some poly }) w.backend
    { rep := { w.rep with dynamicGeom := w.rep.dynamicGeom.set dgeom { info with line := line' } },
      backend := be }

/-- Stage indices of the SimTK `Stage` enumeration (the type itself is
library code outside this repository; only the relative order matters). -/
def StageEmpty : Int := 0
def StageTopology : Int := 1
def StageModel : Int := 2

/-- The stages visited by `for (Stage stage=Stage::Model; stage <= current; ++stage)`,
in increasing order (empty when the state is realized below `Stage::Model`). -/
def stageRange (current : Int) : List Int :=
  (List.range (current - StageModel + 1).toNat).map (fun (k : Nat) => StageModel + (k : Int))

/-- The geometry mined from the system per report cycle, in stage order. -/
def stageGeomItems (s : SimState) : List DecorativeGeometry :=
  ((stageRange s.systemStage).map s.decorativeGeometry).flatten

/-- The stage loop of `report`: `calcDecorativeGeometryAndAppend` appends each
stage's items to `ephemeralGeometry`. -/
def collectStageGeometry (s : SimState) (w : World) : World :=
  { w with rep := { w.rep with
                      ephemeralGeometry :=
                        (stageRange s.systemStage).foldl
                          (fun acc stage => acc ++ s.decorativeGeometry stage)
                          w.rep.ephemeralGeometry } }

/-- The colour ternary of `displayEphemeralGeometry`:
`dgeom.getColor()[0] != -1 ? dgeom.getColor() : getDefaultBodyColor(body)`.
The body-default branch is only evaluated when the colour is unset, and fails
when the owning body id is not a registered body. -/
def ephemeralColor (r : VTKReporterRep) (dgeom : DecorativeGeometry) : Option Vec3 :=
  if dgeom.color.x ≠ -1 then some dgeom.color
  else (getBody r dgeom.bodyId).map PerBodyInfo.defaultColorRGB

/-- The per-item body of the rebuild loop in `displayEphemeralGeometry`.
Accumulates the new actor ids; the error case carries the backend and the
actors built so far (the C++ `resize` leaves the remaining slots stale, and
the loop is abandoned at the throw point). -/
def buildEphemeralActors (s : SimState) (r : VTKReporterRep) :
    List DecorativeGeometry → Backend → List Nat →
    Except (VTKError × Backend × List Nat) (Backend × List Nat)
  | [], be, acc => .ok (be, acc)
  | g :: rest, be, acc =>
    let (aid, be) := vtkActorNew be
    match s.getBodyTransform g.bodyId with
    | none => .error (.outOfRangeBody g.bodyId, be, acc ++ [aid])
    | some X_GB =>
      -- dgeom.setTransform(X_GB * dgeom.getTransform())
      let dgeom := { g with transform := X_GB.compose g.transform }
      match ephemeralColor r dgeom with
      | none => .error (.outOfRangeBody dgeom.bodyId, be, acc ++ [aid])
      | some color =>
        let be := modifyActor aid (fun a =>
          { a with color := color,
                   opacity := resolveOpacity dgeom,
                   lineWidth := resolveLineWidth dgeom,
                   representation := convertToVTKRepresentation (resolveRepresentation dgeom),
                   mapperInput := some (implementGeometry dgeom) }) be
        let be := addActor aid be
        buildEphemeralActors s r rest be (acc ++ [aid])

/-- The destruction pass over the previous generation of ephemeral actors
("out with the old"): remove each one from the renderer and release it. -/
def destroyFold (L : List Nat) (be : Backend) : Backend :=
  L.foldl (fun be aid => deleteActor aid (removeActor aid be)) be

/-- `VTKReporterRep::displayEphemeralGeometry`: first remove and release every
actor of the previous generation (unconditionally), then build one actor per
pending item, then clear the pending queue. -/
def displayEphemeralGeometry (s : SimState) (w : World) :
    Except (VTKError × World) World :=
  let be0 := destroyFold w.rep.ephemeralActors w.backend
  match buildEphemeralActors s w.rep w.rep.ephemeralGeometry be0 [] with
  | .error (e, be, built) =>
    .error (e, { w with backend := be, rep := { w.rep with ephemeralActors := built } })
  | .ok (be, built) =>
    .ok { w with
            backend := be,
            rep := { w.rep with ephemeralActors := built, ephemeralGeometry := [] } }

/-- Phase 1 of `report`: apply the configuration of every non-ground body in
id order (bodies `1 .. getNBodies()-1`). -/
def configLoop (aa : Mat33 → Vec4) (s : SimState) :
    List Int → World → Except (VTKError × World) World
  | [], w => .ok w
  | i :: rest, w =>
    match s.getBodyTransform i with
    | none => .error (.outOfRangeBody i, w)
    | some X =>
      match setConfiguration aa i X w with
      | .error e => .error e
      | .ok w' => configLoop aa s rest w'

/-- The ids visited by `for (MobilizedBodyId i(1); i < n; ++i)`. -/
def bodyIndexList (n : Nat) : List Int := (List.range' 1 (n - 1)).map Int.ofNat

def updateConfigurations (aa : Mat33 → Vec4) (s : SimState) (w : World) :
    Except (VTKError × World) World :=
  configLoop aa s (bodyIndexList s.nBodies) w

/-- Phase 2 of `report`: recompute every rubber-band line's world endpoints
from the current transforms and rebuild its shape. -/
def rbLoop (s : SimState) : List Nat → World → Except (VTKError × World) World
  | [], w => .ok w
  | i :: rest, w =>
    match w.rep.dynamicGeom.get? i with
    | none => rbLoop s rest w
    | some info =>
      match s.getBodyTransform info.body1 with
      | none => .error (.outOfRangeBody info.body1, w)
      | some X1 =>
        match s.getBodyTransform info.body2 with
        | none => .error (.outOfRangeBody info.body2, w)
        | some X2 =>
          rbLoop s rest
            (setRubberBandLine i (X1.apply info.station1) (X2.apply info.station2) w)

def updateDynamicGeom (s : SimState) (w : World) : Except (VTKError × World) World :=
  rbLoop s (List.range w.rep.dynamicGeom.length) w

/-- `VTKReporterRep::report`.  A null `renWin` (Disposed) makes it a no-op.
`mbs.realize(s, Stage::Position)` is the simulation collaborator's work and is
modelled as already reflected in `s`.  The Win32 message pump at the end is
platform glue and not modelled. -/
def report (aa : Mat33 → Vec4) (s : SimState) (w : World) :
    Except (VTKError × World) World :=
  if w.rep.renWinLive = false then .ok w
  else
    match updateConfigurations aa s w with
    | .error e => .error e
    | .ok w1 =>
      match updateDynamicGeom s w1 with
      | .error e => .error e
      | .ok w2 =>
        let w3 := collectStageGeometry s w2
        match displayEphemeralGeometry s w3 with
        | .error e => .error e
        | .ok w4 =>
          let w5 :=
            if w4.rep.cameraNeedsToBeReset then
              { rep := { w4.rep with cameraNeedsToBeReset := false },
                backend := resetCameraB w4.backend }
            else w4
          .ok { w5 with backend := renderB w5.backend }

/-- The releases performed by `VTKReporterRep::deletePointers` on the backend:
every decoration actor, every rubber-band actor, then every live ephemeral
actor (those are also removed from the scene first); finally the renderer and
render window are released, taking the scene list with them. -/
def deletePointersBackend (r : VTKReporterRep) (be : Backend) : Backend :=
  let be := r.bodies.foldl
    (fun be pb => pb.aList.foldl (fun be aid => deleteActor aid be) be) be
  let be := r.dynamicGeom.foldl (fun be info => deleteActor info.actor be) be
  let be := r.ephemeralActors.foldl
    (fun be aid => deleteActor aid (removeActor aid be)) be
  { be with scene := [] }

/-- `deletePointers` (also the destructor's work): release everything and null
the window/renderer pointers (`zeroPointers`), entering the Disposed state. -/
def deletePointers (w : World) : World :=
  { rep := { w.rep with renWinLive := false },
    backend := deletePointersBackend w.rep w.backend }

/-- `VTKReporterRep::clone`, used by the copy constructor and copy assignment
of `VTKReporter`: `new VTKReporterRep(*this)` is a memberwise copy, so the
copy holds the same actor handles (and window) as the original; only the
`myHandle` back-pointer is cleared, which has no counterpart here. -/
def clone (r : VTKReporterRep) : VTKReporterRep := r

/-- The reporter state right after the `VTKReporterRep` constructor, modelled
for a system whose topology is realized, with auto-geometry disabled
(`defaultScaleForAutoGeometry = 0`), all default mobilizer frames and mass
centers at the origin and no topology-stage system geometry (so the
default-geometry and mining loops add nothing).  `parents.get? (i-1)` is the
parent of body `i + 1`; ground (body 0) gets the ground colour, direct
children of ground the base-body colour, all others the neutral colour.  The
constructor ends with `renderer->ResetCamera(); renWin->Render();` and leaves
`cameraNeedsToBeReset` as initialised, namely `true`. -/
def initialWorld (parents : List Int) : World :=
  let n := parents.length + 1
  { rep := { cameraNeedsToBeReset := true,
             bodies := (List.range n).map (fun i =>
               { aList := [], gList := [],
                 defaultColorRGB :=
                   if i = 0 then DefaultGroundBodyColor
                   else if parents.get? (i - 1) = some 0 then DefaultBaseBodyColor
                   else DefaultBodyColor,
                 scale := 0 }),
             dynamicGeom := [], ephemeralGeometry := [], ephemeralActors := [],
             renWinLive := true },
    backend := { nextId := 0, live := [], scene := [], deletions := [],
                 resetCameraCount := 1, renderCount := 1 } }

/-! ### Named projections, helper states and witness inputs -/

/-- The backend fields not touched by actor-property updates. -/
def Backend.misc (be : Backend) : Nat × List Nat × List Nat × Nat × Nat :=
  (be.nextId, be.scene, be.deletions, be.resetCameraCount, be.renderCount)

/-- The per-entry data `setRubberBandLine` never changes. -/
def dynKey (info : PerDynamicGeomInfo) : Nat × Int × Int × Vec3 × Vec3 :=
  (info.actor, info.body1, info.body2, info.station1, info.station2)

/-- The actor state apart from the mapper input. -/
def Actor.styleAndPose (a : Actor) : Vec3 × List Vec4 × Vec3 × ℚ × ℚ × Int :=
  (a.position, a.orientationOps, a.color, a.opacity, a.lineWidth, a.representation)

/-- The reporter fields the phase-2 loop leaves alone. -/
def VTKReporterRep.rbFrame (r : VTKReporterRep) :
    Bool × List PerBodyInfo × List DecorativeGeometry × List Nat × Bool ×
      List (Nat × Int × Int × Vec3 × Vec3) :=
  (r.cameraNeedsToBeReset, r.bodies, r.ephemeralGeometry, r.ephemeralActors,
   r.renWinLive, r.dynamicGeom.map dynKey)

/-- The backend at the end of the rebuild loop, whether it completed or threw. -/
def buildResultBackend :
    Except (VTKError × Backend × List Nat) (Backend × List Nat) → Backend
  | .ok (be, _) => be
  | .error (_, be, _) => be

/-- The actor state produced for one ephemeral item whose composed geometry is
`dgeom` and resolved colour is `c`. -/
def ephemeralActorState (dgeom : DecorativeGeometry) (c : Vec3) : Actor :=
  { position := ⟨0, 0, 0⟩, orientationOps := [], color := c,
    opacity := resolveOpacity dgeom, lineWidth := resolveLineWidth dgeom,
    representation := convertToVTKRepresentation (resolveRepresentation dgeom),
    mapperInput := some (implementGeometry dgeom) }

/-- The resulting world of a successful fallible operation. -/
def okWorld : Except (VTKError × World) World → Option World
  | .ok w => some w
  | .error _ => none

/-- The world carried by a failed fallible operation (its state at the throw). -/
def errWorld : Except (VTKError × World) World → Option World
  | .ok _ => none
  | .error (_, w) => some w

/-- The error raised by a failed fallible operation. -/
def errCode : Except (VTKError × World) World → Option VTKError
  | .ok _ => none
  | .error (e, _) => some e

/-- The actor built by `addDecoration` for composed geometry `dgeom` on a body
whose current default colour is `bodyDefault`. -/
def decorationActorState (dgeom : DecorativeGeometry) (bodyDefault : Vec3) : Actor :=
  { position := ⟨0, 0, 0⟩, orientationOps := [],
    color := resolveColor dgeom bodyDefault,
    opacity := resolveOpacity dgeom,
    lineWidth := resolveLineWidth dgeom,
    representation := convertToVTKRepresentation (resolveRepresentation dgeom),
    mapperInput := some (implementGeometry dgeom) }

def witnessState : SimState :=
  { transforms := [Transform.identity], systemStage := StageTopology,
    decorativeGeometry := fun _ => [] }

def witnessAA : Mat33 → Vec4 := fun _ => ⟨0, 1, 0, 0⟩

def witnessGeom : DecorativeGeometry :=
  { shape := .sphere 1, transform := Transform.identity, color := ⟨-1, -1, -1⟩,
    opacity := -1, lineThickness := -1, representation := -1, bodyId := 1 }

def witnessGeom0 : DecorativeGeometry :=
  { shape := .sphere 1, transform := Transform.identity, color := ⟨-1, -1, -1⟩,
    opacity := -1, lineThickness := -1, representation := -1, bodyId := 0 }

/-- Recover the angle-axis data stored by a reset-then-single-`RotateWXYZ`
orientation (undoing the degree conversion); `none` if the orientation was not
produced that way. -/
def recoverAngleAxis : List Vec4 → Option Vec4
  | [v] => some ⟨v.w / RadiansToDegrees, v.x, v.y, v.z⟩
  | _ => none

def witnessWorldC1 : World :=
  { rep := { cameraNeedsToBeReset := false,
             bodies := [{ aList := [], gList := [], defaultColorRGB := Green, scale := 0 },
                        { aList := [0], gList := [], defaultColorRGB := Red, scale := 0 }],
             dynamicGeom := [], ephemeralGeometry := [], ephemeralActors := [],
             renWinLive := true },
    backend := { nextId := 1, live := [(0, {})], scene := [0], deletions := [],
                 resetCameraCount := 1, renderCount := 1 } }

def witnessStateC1 : SimState :=
  { transforms := [Transform.identity, { rot := Mat33.identity, trans := ⟨5, 6, 7⟩ }],
    systemStage := StageTopology, decorativeGeometry := fun _ => [] }

def witnessGeomC2 : DecorativeGeometry :=
  { shape := .line ⟨0, 0, 0⟩ ⟨1, 1, 1⟩, transform := Transform.identity,
    color := ⟨-1, -1, -1⟩, opacity := -1, lineThickness := -1,
    representation := -1, bodyId := -1 }

def witnessInfoC2 : PerDynamicGeomInfo :=
  { actor := 0, line := witnessGeomC2, body1 := 0, body2 := 1,
    station1 := ⟨1, 0, 0⟩, station2 := ⟨0, 0, 0⟩ }

def witnessXC2 : Transform := { rot := Mat33.identity, trans := ⟨2, 3, 4⟩ }

def witnessWorldC2 : World :=
  { rep := { cameraNeedsToBeReset := false,
             bodies := [{ aList := [], gList := [], defaultColorRGB := Green, scale := 0 },
                        { aList := [], gList := [], defaultColorRGB := Red, scale := 0 }],
             dynamicGeom := [witnessInfoC2],
             ephemeralGeometry := [], ephemeralActors := [],
             renWinLive := true },
    backend := { nextId := 1, live := [(0, {})], scene := [0], deletions := [],
                 resetCameraCount := 1, renderCount := 1 } }

def witnessStateC2 : SimState :=
  { transforms := [Transform.identity, witnessXC2],
    systemStage := StageTopology, decorativeGeometry := fun _ => [] }

/-- The witness entry after the report: endpoints `identity·(1,0,0)` and
`witnessXC2·(0,0,0)`. -/
def witnessInfoC2Updated : PerDynamicGeomInfo :=
  { witnessInfoC2 with
      line := witnessInfoC2.line.setEndpoints (Transform.identity.apply ⟨1, 0, 0⟩)
        (witnessXC2.apply ⟨0, 0, 0⟩) }

/-- Every actor id the reporter tracks: decoration proxies, rubber-band
proxies and the current ephemeral generation — the three groups
`deletePointers` releases. -/
def allTracked (r : VTKReporterRep) : List Nat :=
  (r.bodies.map PerBodyInfo.aList).flatten
    ++ r.dynamicGeom.map PerDynamicGeomInfo.actor
    ++ r.ephemeralActors

/-- A plain release pass over a list of actor ids (no scene removal). -/
def deleteFold (L : List Nat) (be : Backend) : Backend :=
  L.foldl (fun be aid => deleteActor aid be) be

def witnessWorldC8 : World :=
  { rep := { cameraNeedsToBeReset := false,
             bodies := [{ aList := [], gList := [], defaultColorRGB := Green, scale := 0 },
                        { aList := [0], gList := [], defaultColorRGB := Red, scale := 0 }],
             dynamicGeom := [], ephemeralGeometry := [], ephemeralActors := [],
             renWinLive := true },
    backend := { nextId := 1, live := [(0, {})], scene := [0], deletions := [],
                 resetCameraCount := 1, renderCount := 1 } }

/-! ### Backend bookkeeping lemmas -/

theorem misc_modifyActor (b : Nat) (f : Actor → Actor) (be : Backend) :
    (modifyActor b f be).misc = be.misc := rfl

theorem findActor_map_modify (b aid : Nat) (f : Actor → Actor) :
    ∀ l : List (Nat × Actor),
      ((l.map (fun p => if p.1 = b then (p.1, f p.2) else p)).find?
          (fun p => p.1 = aid)).map Prod.snd =
        if aid = b then ((l.find? (fun p => p.1 = aid)).map Prod.snd).map f
        else (l.find? (fun p => p.1 = aid)).map Prod.snd
  | [] => by simp [List.find?]
  | (k, a) :: tl => by
    by_cases hka : k = aid
    · subst hka
      by_cases hkb : k = b
      · subst hkb
        simp [List.find?]
      · simp [List.find?, hkb]
    · by_cases hkb : k = b
      · subst hkb
        simpa [List.find?, hka] using findActor_map_modify k aid f tl
      · simpa [List.find?, hka, hkb] using findActor_map_modify b aid f tl

theorem getActor_modifyActor (b : Nat) (f : Actor → Actor) (be : Backend) (aid : Nat) :
    getActor (modifyActor b f be) aid =
      if aid = b then (getActor be aid).map f else getActor be aid := by
  simpa [getActor, modifyActor] using findActor_map_modify b aid f be.live

theorem getActor_modifyActor_ne (b : Nat) (f : Actor → Actor) (be : Backend) (aid : Nat)
    (h : aid ≠ b) : getActor (modifyActor b f be) aid = getActor be aid := by
  simp [getActor_modifyActor, h]

theorem getActor_modifyActor_self (b : Nat) (f : Actor → Actor) (be : Backend) :
    getActor (modifyActor b f be) b = (getActor be b).map f := by
  simp [getActor_modifyActor]

theorem getActor_removeActor (b : Nat) (be : Backend) (aid : Nat) :
    getActor (removeActor b be) aid = getActor be aid := rfl

theorem getActor_addActor (b : Nat) (be : Backend) (aid : Nat) :
    getActor (addActor b be) aid = getActor be aid := rfl

theorem getActor_resetCameraB (be : Backend) (aid : Nat) :
    getActor (resetCameraB be) aid = getActor be aid := rfl

theorem getActor_renderB (be : Backend) (aid : Nat) :
    getActor (renderB be) aid = getActor be aid := rfl

theorem find_filter_ne (b aid : Nat) (h : aid ≠ b) :
    ∀ l : List (Nat × Actor),
      (l.filter (fun p => p.1 ≠ b)).find? (fun p => p.1 = aid) =
        l.find? (fun p => p.1 = aid)
  | [] => rfl
  | (k, a) :: tl => by
    by_cases hkb : k = b
    · subst hkb
      have hka : ¬k = aid := fun hk => h (hk ▸ rfl)
      simpa [List.find?, List.filter, hka] using find_filter_ne k aid h tl
    · by_cases hka : k = aid
      · subst hka
        simp [List.find?, List.filter, hkb]
      · simpa [List.find?, List.filter, hkb, hka] using find_filter_ne b aid h tl

theorem getActor_deleteActor_ne (b : Nat) (be : Backend) (aid : Nat) (h : aid ≠ b) :
    getActor (deleteActor b be) aid = getActor be aid := by
  unfold getActor deleteActor
  rw [find_filter_ne b aid h]

theorem find_filter_self (b : Nat) :
    ∀ l : List (Nat × Actor),
      (l.filter (fun p => p.1 ≠ b)).find? (fun p => p.1 = b) = none
  | [] => rfl
  | (k, a) :: tl => by
    by_cases hkb : k = b <;>
      simp [List.find?, List.filter, hkb, find_filter_self b tl]

theorem getActor_deleteActor_self (b : Nat) (be : Backend) :
    getActor (deleteActor b be) b = none := by
  simp [getActor, deleteActor, find_filter_self]

theorem getActor_vtkActorNew_ne (be : Backend) (aid : Nat) (h : aid ≠ be.nextId) :
    getActor (vtkActorNew be).2 aid = getActor be aid := by
  simp only [getActor, vtkActorNew, List.find?_append]
  have : List.find? (fun p => p.1 = aid) [(be.nextId, ({} : Actor))] = none := by
    simp [List.find?, Ne.symm h]
  cases hfind : be.live.find? (fun p => p.1 = aid) <;> simp [Option.orElse, hfind, this]

theorem getActor_vtkActorNew_self (be : Backend)
    (hfresh : ∀ p ∈ be.live, p.1 < be.nextId) :
    getActor (vtkActorNew be).2 be.nextId = some {} := by
  simp only [getActor, vtkActorNew, List.find?_append]
  have hnone : be.live.find? (fun p => p.1 = be.nextId) = none := by
    rw [List.find?_eq_none]
    intro p hp
    simp only [decide_eq_true_eq]
    exact Nat.ne_of_lt (hfresh p hp)
  simp [hnone, Option.orElse, List.find?]

/-! ### Folded actor updates -/

theorem misc_foldl_modify (f : Actor → Actor) :
    ∀ (L : List Nat) (be : Backend),
      (L.foldl (fun be aid => modifyActor aid f be) be).misc = be.misc
  | [], _ => rfl
  | b :: L, be => by
    simpa [List.foldl] using misc_foldl_modify f L (modifyActor b f be)

theorem getActor_foldl_modify_notmem (f : Actor → Actor) (aid : Nat) :
    ∀ (L : List Nat) (be : Backend), aid ∉ L →
      getActor (L.foldl (fun be b => modifyActor b f be) be) aid = getActor be aid
  | [], _, _ => rfl
  | b :: L, be, h => by
    have hb : aid ≠ b := fun hc => h (hc ▸ List.mem_cons_self b L)
    have hL : aid ∉ L := fun hc => h (List.mem_cons_of_mem b hc)
    rw [List.foldl_cons, getActor_foldl_modify_notmem f aid L _ hL,
      getActor_modifyActor_ne b f be aid hb]

theorem getActor_foldl_modify_mem (f : Actor → Actor)
    (hf : ∀ a, f (f a) = f a) (aid : Nat) :
    ∀ (L : List Nat) (be : Backend), aid ∈ L →
      getActor (L.foldl (fun be b => modifyActor b f be) be) aid = (getActor be aid).map f
  | [], _, h => absurd h (List.not_mem_nil aid)
  | b :: L, be, h => by
    rw [List.foldl_cons]
    by_cases hb : aid = b
    · subst hb
      by_cases hL : aid ∈ L
      · rw [getActor_foldl_modify_mem f hf aid L _ hL, getActor_modifyActor_self]
        cases getActor be aid <;> simp [hf]
      · rw [getActor_foldl_modify_notmem f aid L _ hL, getActor_modifyActor_self]
    · have hL : aid ∈ L := List.mem_of_ne_of_mem hb h
      rw [getActor_foldl_modify_mem f hf aid L _ hL, getActor_modifyActor_ne b f be aid hb]

/-! ### setConfiguration and the phase-1 loop -/

theorem applyConfiguration_idem (aa : Mat33 → Vec4) (X : Transform) (a : Actor) :
    applyConfiguration aa X (applyConfiguration aa X a) = applyConfiguration aa X a := rfl

theorem applyConfiguration_mapperInput (aa : Mat33 → Vec4) (X : Transform) (a : Actor) :
    (applyConfiguration aa X a).mapperInput = a.mapperInput := rfl

theorem setConfiguration_ok (aa : Mat33 → Vec4) (i : Int) (X : Transform)
    (w w' : World) (h : setConfiguration aa i X w = .ok w') :
    ∃ pb, getBody w.rep i = some pb ∧
      w' = { w with
               backend := pb.aList.foldl
                 (fun be aid => modifyActor aid (applyConfiguration aa X) be) w.backend } := by
  unfold setConfiguration at h
  cases hg : getBody w.rep i with
  | none => simp [hg] at h
  | some pb =>
    simp only [hg] at h
    exact ⟨pb, rfl, by injection h with h'; exact h'.symm⟩

theorem configLoop_cons_ok (aa : Mat33 → Vec4) (s : SimState) (i : Int) (L : List Int)
    (w w' : World) (h : configLoop aa s (i :: L) w = .ok w') :
    ∃ X wm, s.getBodyTransform i = some X ∧ setConfiguration aa i X w = .ok wm ∧
      configLoop aa s L wm = .ok w' := by
  unfold configLoop at h
  cases hX : s.getBodyTransform i with
  | none => simp [hX] at h
  | some X =>
    simp only [hX] at h
    cases hs : setConfiguration aa i X w with
    | error e => simp [hs] at h
    | ok wm =>
      simp only [hs] at h
      exact ⟨X, wm, rfl, hs, h⟩

theorem configLoop_frame (aa : Mat33 → Vec4) (s : SimState) :
    ∀ (L : List Int) (w w' : World), configLoop aa s L w = .ok w' →
      w'.rep = w.rep ∧ w'.backend.misc = w.backend.misc
  | [], w, w', h => by injection h with h; exact h ▸ ⟨rfl, rfl⟩
  | i :: L, w, w', h => by
    obtain ⟨X, wm, hX, hs, hrest⟩ := configLoop_cons_ok aa s i L w w' h
    obtain ⟨pb, _, hwm⟩ := setConfiguration_ok aa i X w wm hs
    obtain ⟨h1, h2⟩ := configLoop_frame aa s L wm w' hrest
    subst hwm
    exact ⟨h1, h2.trans (misc_foldl_modify _ pb.aList w.backend)⟩

theorem configLoop_getActor_notmem (aa : Mat33 → Vec4) (s : SimState) (aid : Nat) :
    ∀ (L : List Int) (w w' : World), configLoop aa s L w = .ok w' →
      (∀ j ∈ L, ∀ pb, getBody w.rep j = some pb → aid ∉ pb.aList) →
      getActor w'.backend aid = getActor w.backend aid
  | [], w, w', h, _ => by injection h with h; exact h ▸ rfl
  | i :: L, w, w', h, hnot => by
    obtain ⟨X, wm, hX, hs, hrest⟩ := configLoop_cons_ok aa s i L w w' h
    obtain ⟨pb, hpb, hwm⟩ := setConfiguration_ok aa i X w wm hs
    have hrep : wm.rep = w.rep := by rw [hwm]
    have hrec := configLoop_getActor_notmem aa s aid L wm w' hrest (fun j hj pbj hpbj =>
      hnot j (List.mem_cons_of_mem i hj) pbj (by rw [← hrep]; exact hpbj))
    rw [hrec, hwm]
    exact getActor_foldl_modify_notmem _ aid pb.aList w.backend
      (hnot i (List.mem_cons_self i L) pb hpb)

theorem configLoop_getActor_mem (aa : Mat33 → Vec4) (s : SimState) (aid : Nat)
    (i : Int) (X : Transform) (hX : s.getBodyTransform i = some X) :
    ∀ (L : List Int) (w w' : World), configLoop aa s L w = .ok w' →
      i ∈ L →
      ∀ pb, getBody w.rep i = some pb → aid ∈ pb.aList →
      (∀ k ∈ L, k ≠ i → ∀ pbk, getBody w.rep k = some pbk → aid ∉ pbk.aList) →
      getActor w'.backend aid = (getActor w.backend aid).map (applyConfiguration aa X)
  | [], _, _, _, hi, _, _, _, _ => absurd hi (List.not_mem_nil i)
  | j :: L, w, w', h, hi, pb, hpb, haid, hother => by
    obtain ⟨Xj, wm, hXj, hs, hrest⟩ := configLoop_cons_ok aa s j L w w' h
    obtain ⟨pbj, hpbj, hwm⟩ := setConfiguration_ok aa j Xj w wm hs
    have hrep : wm.rep = w.rep := by rw [hwm]
    by_cases hij : i = j
    · subst hij
      have hXX : X = Xj := by rw [hX] at hXj; exact Option.some.inj hXj
      subst hXX
      have hpbb : pb = pbj := by rw [hpb] at hpbj; exact Option.some.inj hpbj
      subst hpbb
      have hmid : getActor wm.backend aid =
          (getActor w.backend aid).map (applyConfiguration aa X) := by
        rw [hwm]
        exact getActor_foldl_modify_mem _ (applyConfiguration_idem aa X) aid
          pb.aList w.backend haid
      by_cases hiL : i ∈ L
      · have hrec := configLoop_getActor_mem aa s aid i X hX L wm w' hrest hiL pb
          (by rw [hrep]; exact hpb) haid
          (fun k hk hki pbk hpbk =>
            hother k (List.mem_cons_of_mem i hk) hki pbk (by rw [← hrep]; exact hpbk))
        rw [hrec, hmid]
        cases getActor w.backend aid <;> simp [applyConfiguration_idem]
      · have hrec := configLoop_getActor_notmem aa s aid L wm w' hrest
          (fun k hk pbk hpbk => by
            have hki : k ≠ i := fun hc => hiL (hc ▸ hk)
            exact hother k (List.mem_cons_of_mem i hk) hki pbk
              (by rw [← hrep]; exact hpbk))
        rw [hrec, hmid]
    · have hiL : i ∈ L := List.mem_of_ne_of_mem hij hi
      have hmid : getActor wm.backend aid = getActor w.backend aid := by
        rw [hwm]
        exact getActor_foldl_modify_notmem _ aid pbj.aList w.backend
          (hother j (List.mem_cons_self j L) (fun hc => hij hc.symm) pbj hpbj)
      have hrec := configLoop_getActor_mem aa s aid i X hX L wm w' hrest hiL pb
        (by rw [hrep]; exact hpb) haid
        (fun k hk hki pbk hpbk =>
          hother k (List.mem_cons_of_mem j hk) hki pbk (by rw [← hrep]; exact hpbk))
      rw [hrec, hmid]

/-! ### setRubberBandLine and the phase-2 loop -/

theorem setEndpoints_setEndpoints (g : DecorativeGeometry) (p1 p2 q1 q2 : Vec3) :
    (g.setEndpoints p1 p2).setEndpoints q1 q2 = g.setEndpoints q1 q2 := rfl

theorem map_set_list {α β : Type} (f : α → β) :
    ∀ (l : List α) (i : Nat) (a : α), (l.set i a).map f = (l.map f).set i (f a)
  | [], _, _ => rfl
  | _ :: _, 0, _ => rfl
  | x :: tl, i + 1, a => by simp [List.set, map_set_list f tl i a]

theorem set_of_get?_eq {α : Type} :
    ∀ (l : List α) (i : Nat) (a : α), l.get? i = some a → l.set i a = l
  | [], i, a, h => by simp at h
  | x :: tl, 0, a, h => by
    simp only [List.get?] at h
    injection h with h
    rw [List.set, h]
  | x :: tl, i + 1, a, h => by
    simp only [List.get?] at h
    rw [List.set, set_of_get?_eq tl i a h]

theorem setRubberBandLine_some (i : Nat) (p1 p2 : Vec3) (w : World)
    (info : PerDynamicGeomInfo) (h : w.rep.dynamicGeom.get? i = some info) :
    setRubberBandLine i p1 p2 w =
      { rep := { w.rep with
                   dynamicGeom := w.rep.dynamicGeom.set i
                     { info with line := info.line.setEndpoints p1 p2 } },
        backend := modifyActor info.actor
          (fun a => { a with
                        mapperInput := some (implementGeometry (info.line.setEndpoints p1 p2)) })
          w.backend } := by
  unfold setRubberBandLine
  rw [h]

theorem rbFrame_setRubberBandLine (i : Nat) (p1 p2 : Vec3) (w : World) :
    (setRubberBandLine i p1 p2 w).rep.rbFrame = w.rep.rbFrame := by
  unfold setRubberBandLine
  cases h : w.rep.dynamicGeom.get? i with
  | none => rfl
  | some info =>
    simp only [VTKReporterRep.rbFrame]
    rw [map_set_list dynKey]
    have hk : dynKey { info with line := info.line.setEndpoints p1 p2 } = dynKey info := rfl
    rw [hk, set_of_get?_eq (w.rep.dynamicGeom.map dynKey) i (dynKey info)
      (by rw [List.get?_map, h]; rfl)]

theorem rbLoop_cons_ok (s : SimState) (i : Nat) (L : List Nat) (w w' : World)
    (h : rbLoop s (i :: L) w = .ok w') :
    (w.rep.dynamicGeom.get? i = none ∧ rbLoop s L w = .ok w') ∨
    (∃ info X1 X2, w.rep.dynamicGeom.get? i = some info ∧
      s.getBodyTransform info.body1 = some X1 ∧
      s.getBodyTransform info.body2 = some X2 ∧
      rbLoop s L
        (setRubberBandLine i (X1.apply info.station1) (X2.apply info.station2) w) = .ok w') := by
  unfold rbLoop at h
  cases hg : w.rep.dynamicGeom.get? i with
  | none =>
    simp only [hg] at h
    exact Or.inl ⟨rfl, h⟩
  | some info =>
    simp only [hg] at h
    cases h1 : s.getBodyTransform info.body1 with
    | none => simp [h1] at h
    | some X1 =>
      simp only [h1] at h
      cases h2 : s.getBodyTransform info.body2 with
      | none => simp [h2] at h
      | some X2 =>
        simp only [h2] at h
        exact Or.inr ⟨info, X1, X2, rfl, h1, h2, h⟩

theorem rbLoop_frame (s : SimState) :
    ∀ (L : List Nat) (w w' : World), rbLoop s L w = .ok w' →
      w'.rep.rbFrame = w.rep.rbFrame ∧ w'.backend.misc = w.backend.misc ∧
      ∀ aid, (getActor w'.backend aid).map Actor.styleAndPose =
        (getActor w.backend aid).map Actor.styleAndPose
  | [], w, w', h => by injection h with h; exact h ▸ ⟨rfl, rfl, fun _ => rfl⟩
  | i :: L, w, w', h => by
    rcases rbLoop_cons_ok s i L w w' h with ⟨_, hrest⟩ | ⟨info, X1, X2, hg, _, _, hrest⟩
    · exact rbLoop_frame s L w w' hrest
    · obtain ⟨h1, h2, h3⟩ := rbLoop_frame s L _ w' hrest
      refine ⟨h1.trans (rbFrame_setRubberBandLine i _ _ w), ?_, ?_⟩
      · rw [h2, setRubberBandLine_some i _ _ w info hg]
        rfl
      · intro aid
        rw [h3 aid, setRubberBandLine_some i _ _ w info hg]
        simp only [getActor_modifyActor]
        by_cases ha : aid = info.actor
        · rw [if_pos ha]
          cases getActor w.backend aid <;> rfl
        · rw [if_neg ha]

theorem rbLoop_get?_notmem (s : SimState) (i : Nat) :
    ∀ (L : List Nat) (w w' : World), rbLoop s L w = .ok w' → i ∉ L →
      w'.rep.dynamicGeom.get? i = w.rep.dynamicGeom.get? i
  | [], w, w', h, _ => by injection h with h; exact h ▸ rfl
  | j :: L, w, w', h, hnot => by
    have hj : j ≠ i := fun hc => hnot (hc ▸ List.mem_cons_self j L)
    have hL : i ∉ L := fun hc => hnot (List.mem_cons_of_mem j hc)
    rcases rbLoop_cons_ok s j L w w' h with ⟨_, hrest⟩ | ⟨info, X1, X2, hg, _, _, hrest⟩
    · exact rbLoop_get?_notmem s i L w w' hrest hL
    · rw [rbLoop_get?_notmem s i L _ w' hrest hL,
        setRubberBandLine_some j _ _ w info hg]
      exact List.get?_set_ne _ w.rep.dynamicGeom hj

theorem rbLoop_getActor_notactor (s : SimState) (aid : Nat) :
    ∀ (L : List Nat) (w w' : World), rbLoop s L w = .ok w' →
      (∀ j ∈ L, ∀ infoj, w.rep.dynamicGeom.get? j = some infoj → infoj.actor ≠ aid) →
      getActor w'.backend aid = getActor w.backend aid
  | [], w, w', h, _ => by injection h with h; exact h ▸ rfl
  | j :: L, w, w', h, hnot => by
    rcases rbLoop_cons_ok s j L w w' h with ⟨_, hrest⟩ | ⟨info, X1, X2, hg, _, _, hrest⟩
    · exact rbLoop_getActor_notactor s aid L w w' hrest
        (fun k hk infok hik => hnot k (List.mem_cons_of_mem j hk) infok hik)
    · have hmid := setRubberBandLine_some j (X1.apply info.station1) (X2.apply info.station2)
        w info hg
      have hrec := rbLoop_getActor_notactor s aid L _ w' hrest (fun k hk infok hik => by
        rw [hmid] at hik
        by_cases hkj : k = j
        · subst hkj
          rw [List.get?_set_eq, hg] at hik
          injection hik with hik
          have : infok.actor = info.actor := by rw [← hik]
          rw [this]
          exact hnot k (List.mem_cons_self k L) info hg
        · rw [List.get?_set_ne _ _ (fun hc => hkj hc.symm)] at hik
          exact hnot k (List.mem_cons_of_mem j hk) infok hik)
      rw [hrec, hmid]
      exact getActor_modifyActor_ne info.actor _ w.backend aid
        (fun hc => hnot j (List.mem_cons_self j L) info hg hc.symm)

theorem rbLoop_entry (s : SimState) :
    ∀ (L : List Nat) (w w' : World), rbLoop s L w = .ok w' → L.Nodup →
      ∀ (i : Nat), i ∈ L →
      ∀ info, w.rep.dynamicGeom.get? i = some info →
      (∀ j ∈ L, j ≠ i → ∀ infoj, w.rep.dynamicGeom.get? j = some infoj →
        infoj.actor ≠ info.actor) →
      ∀ X1 X2, s.getBodyTransform info.body1 = some X1 →
        s.getBodyTransform info.body2 = some X2 →
      w'.rep.dynamicGeom.get? i =
        some { info with
                 line := info.line.setEndpoints (X1.apply info.station1)
                   (X2.apply info.station2) } ∧
      getActor w'.backend info.actor =
        (getActor w.backend info.actor).map
          (fun a => { a with
                        mapperInput := some (implementGeometry
                          (info.line.setEndpoints (X1.apply info.station1)
                            (X2.apply info.station2))) })
  | [], _, _, _, _, i, hi, _, _, _, _, _, _, _ => absurd hi (List.not_mem_nil i)
  | j :: L, w, w', h, hnodup, i, hi, info, hinfo, hactors, X1, X2, hX1, hX2 => by
    have hnodupL : L.Nodup := hnodup.of_cons
    rcases rbLoop_cons_ok s j L w w' h with ⟨hg, hrest⟩ | ⟨infoj, Y1, Y2, hg, hY1, hY2, hrest⟩
    · -- the entry at j does not exist; i cannot be j
      have hij : i ≠ j := fun hc => by rw [hc, hg] at hinfo; exact absurd hinfo (by simp)
      exact rbLoop_entry s L w w' hrest hnodupL i (List.mem_of_ne_of_mem hij hi) info hinfo
        (fun k hk hki infok hk2 =>
          hactors k (List.mem_cons_of_mem j hk) hki infok hk2) X1 X2 hX1 hX2
    · have hmid := setRubberBandLine_some j (Y1.apply infoj.station1)
        (Y2.apply infoj.station2) w infoj hg
      by_cases hij : i = j
      · -- this step performs the update for entry i; the rest leaves it alone
        subst hij
        have hinfoj : info = infoj := by rw [hinfo] at hg; exact Option.some.inj hg
        subst hinfoj
        have hYX1 : X1 = Y1 := by rw [hX1] at hY1; exact Option.some.inj hY1
        have hYX2 : X2 = Y2 := by rw [hX2] at hY2; exact Option.some.inj hY2
        subst hYX1; subst hYX2
        have hiL : i ∉ L := (List.nodup_cons.mp hnodup).1
        constructor
        · rw [rbLoop_get?_notmem s i L _ w' hrest hiL, hmid]
          rw [List.get?_set_eq, hinfo]
          rfl
        · have hrec := rbLoop_getActor_notactor s info.actor L _ w' hrest
            (fun k hk infok hik => by
              rw [hmid] at hik
              have hki : k ≠ i := fun hc => hiL (hc ▸ hk)
              rw [List.get?_set_ne _ _ (fun hc => hki hc.symm)] at hik
              exact hactors k (List.mem_cons_of_mem i hk) hki infok hik)
          rw [hrec, hmid]
          exact getActor_modifyActor_self info.actor _ w.backend
      · -- the step updates a different entry with a different actor
        have hiL : i ∈ L := List.mem_of_ne_of_mem hij hi
        have hja : infoj.actor ≠ info.actor :=
          hactors j (List.mem_cons_self j L) (fun hc => hij hc.symm) infoj hg
        have hinfo_mid : (setRubberBandLine j (Y1.apply infoj.station1)
            (Y2.apply infoj.station2) w).rep.dynamicGeom.get? i = some info := by
          rw [hmid]
          rw [List.get?_set_ne _ _ (fun hc => hij hc.symm)]
          exact hinfo
        have hrec := rbLoop_entry s L _ w' hrest hnodupL i hiL info hinfo_mid
          (fun k hk hki infok hik => by
            rw [hmid] at hik
            by_cases hkj : k = j
            · subst hkj
              rw [List.get?_set_eq, hg] at hik
              injection hik with hik
              have : infok.actor = infoj.actor := by rw [← hik]
              rw [this]
              exact hja
            · rw [List.get?_set_ne _ _ (fun hc => hkj hc.symm)] at hik
              exact hactors k (List.mem_cons_of_mem j hk) hki infok hik) X1 X2 hX1 hX2
        refine ⟨hrec.1, ?_⟩
        rw [hrec.2, hmid]
        rw [getActor_modifyActor_ne infoj.actor _ w.backend info.actor (fun hc => hja hc.symm)]

/-! ### Ephemeral display lemmas -/

theorem destroyFold_deletions :
    ∀ (L : List Nat) (be : Backend), (destroyFold L be).deletions = be.deletions ++ L
  | [], be => (List.append_nil be.deletions).symm
  | a :: L, be => by
    unfold destroyFold at destroyFold_deletions ⊢
    rw [List.foldl_cons, destroyFold_deletions L]
    simp [deleteActor, removeActor]

theorem destroyFold_nextId :
    ∀ (L : List Nat) (be : Backend), (destroyFold L be).nextId = be.nextId
  | [], _ => rfl
  | a :: L, be => by
    unfold destroyFold at destroyFold_nextId ⊢
    rw [List.foldl_cons, destroyFold_nextId L]
    rfl

theorem destroyFold_counts :
    ∀ (L : List Nat) (be : Backend),
      (destroyFold L be).resetCameraCount = be.resetCameraCount ∧
      (destroyFold L be).renderCount = be.renderCount
  | [], _ => ⟨rfl, rfl⟩
  | a :: L, be => by
    unfold destroyFold at destroyFold_counts ⊢
    rw [List.foldl_cons]
    exact destroyFold_counts L _

theorem destroyFold_getActor (aid : Nat) :
    ∀ (L : List Nat) (be : Backend), aid ∉ L →
      getActor (destroyFold L be) aid = getActor be aid
  | [], _, _ => rfl
  | a :: L, be, h => by
    have ha : aid ≠ a := fun hc => h (hc ▸ List.mem_cons_self a L)
    have hL : aid ∉ L := fun hc => h (List.mem_cons_of_mem a hc)
    unfold destroyFold at destroyFold_getActor ⊢
    rw [List.foldl_cons, destroyFold_getActor aid L _ hL,
      getActor_deleteActor_ne a _ aid ha, getActor_removeActor]

theorem build_counters (s : SimState) (r : VTKReporterRep) :
    ∀ (gl : List DecorativeGeometry) (be : Backend) (acc : List Nat),
      (buildResultBackend (buildEphemeralActors s r gl be acc)).deletions = be.deletions ∧
      (buildResultBackend (buildEphemeralActors s r gl be acc)).resetCameraCount
        = be.resetCameraCount ∧
      (buildResultBackend (buildEphemeralActors s r gl be acc)).renderCount
        = be.renderCount ∧
      be.nextId ≤ (buildResultBackend (buildEphemeralActors s r gl be acc)).nextId
  | [], be, acc => ⟨rfl, rfl, rfl, Nat.le_refl _⟩
  | g :: rest, be, acc => by
    unfold buildEphemeralActors
    cases hX : s.getBodyTransform g.bodyId with
    | none => exact ⟨rfl, rfl, rfl, Nat.le_succ _⟩
    | some X =>
      dsimp only [vtkActorNew]
      cases hc : ephemeralColor r { g with transform := X.compose g.transform } with
      | none => exact ⟨rfl, rfl, rfl, Nat.le_succ _⟩
      | some color =>
        obtain ⟨h1, h2, h3, h4⟩ := build_counters s r rest _ (acc ++ [be.nextId])
        exact ⟨h1, h2, h3, Nat.le_trans (Nat.le_succ _) h4⟩

theorem build_getActor_lt (s : SimState) (r : VTKReporterRep) (aid : Nat) :
    ∀ (gl : List DecorativeGeometry) (be : Backend) (acc : List Nat), aid < be.nextId →
      getActor (buildResultBackend (buildEphemeralActors s r gl be acc)) aid
        = getActor be aid
  | [], _, _, _ => rfl
  | g :: rest, be, acc, hlt => by
    have hne : aid ≠ be.nextId := Nat.ne_of_lt hlt
    unfold buildEphemeralActors
    cases hX : s.getBodyTransform g.bodyId with
    | none => exact getActor_vtkActorNew_ne be aid hne
    | some X =>
      dsimp only [vtkActorNew]
      cases hc : ephemeralColor r { g with transform := X.compose g.transform } with
      | none => exact getActor_vtkActorNew_ne be aid hne
      | some color =>
        rw [build_getActor_lt s r aid rest _ (acc ++ [be.nextId]) (Nat.lt_succ_of_lt hlt)]
        rw [getActor_addActor, getActor_modifyActor_ne _ _ _ aid hne]
        exact getActor_vtkActorNew_ne be aid hne

theorem build_ok_length (s : SimState) (r : VTKReporterRep) :
    ∀ (gl : List DecorativeGeometry) (be : Backend) (acc : List Nat) (be' : Backend)
      (built : List Nat), buildEphemeralActors s r gl be acc = .ok (be', built) →
      built.length = acc.length + gl.length
  | [], be, acc, be', built, h => by
    injection h with h
    injection h with h1 h2
    rw [← h2]
    rfl
  | g :: rest, be, acc, be', built, h => by
    unfold buildEphemeralActors at h
    dsimp only [vtkActorNew] at h
    cases hX : s.getBodyTransform g.bodyId with
    | none => simp [hX] at h
    | some X =>
      simp only [hX] at h
      cases hc : ephemeralColor r { g with transform := X.compose g.transform } with
      | none => simp [hc] at h
      | some color =>
        simp only [hc] at h
        have := build_ok_length s r rest _ (acc ++ [be.nextId]) be' built h
        rw [this, List.length_append]
        simp [Nat.add_assoc, Nat.add_comm 1]

theorem destroyFold_live_mem :
    ∀ (L : List Nat) (be : Backend) (p : Nat × Actor),
      p ∈ (destroyFold L be).live → p ∈ be.live
  | [], _, _, h => h
  | a :: L, be, p, h => by
    unfold destroyFold at destroyFold_live_mem h
    rw [List.foldl_cons] at h
    have := destroyFold_live_mem L _ p h
    exact List.mem_of_mem_filter this

theorem display_ok_elim (s : SimState) (w w' : World)
    (h : displayEphemeralGeometry s w = .ok w') :
    ∃ be' built,
      buildEphemeralActors s w.rep w.rep.ephemeralGeometry
        (destroyFold w.rep.ephemeralActors w.backend) [] = .ok (be', built) ∧
      w' = { w with
               backend := be',
               rep := { w.rep with ephemeralActors := built, ephemeralGeometry := [] } } := by
  unfold displayEphemeralGeometry at h
  cases hb : buildEphemeralActors s w.rep w.rep.ephemeralGeometry
      (destroyFold w.rep.ephemeralActors w.backend) [] with
  | error e => simp [hb] at h
  | ok pair =>
    cases pair with
    | mk be' built =>
      simp only [hb] at h
      injection h with h
      exact ⟨be', built, rfl, h.symm⟩

theorem display_err_elim (s : SimState) (w we : World) (e : VTKError)
    (h : displayEphemeralGeometry s w = .error (e, we)) :
    ∃ be' built,
      buildEphemeralActors s w.rep w.rep.ephemeralGeometry
        (destroyFold w.rep.ephemeralActors w.backend) [] = .error (e, be', built) ∧
      we = { w with
               backend := be',
               rep := { w.rep with ephemeralActors := built } } := by
  unfold displayEphemeralGeometry at h
  cases hb : buildEphemeralActors s w.rep w.rep.ephemeralGeometry
      (destroyFold w.rep.ephemeralActors w.backend) [] with
  | error e' =>
    cases e' with
    | mk e1 e2 => cases e2 with
      | mk be2 built2 =>
        simp only [hb] at h
        injection h with h
        injection h with h1 h2
        subst h1
        exact ⟨be2, built2, rfl, h2.symm⟩
  | ok pair =>
    simp [hb] at h

theorem display_ok_deletions (s : SimState) (w w' : World)
    (h : displayEphemeralGeometry s w = .ok w') :
    w'.backend.deletions = w.backend.deletions ++ w.rep.ephemeralActors := by
  obtain ⟨be', built, hb, hw⟩ := display_ok_elim s w w' h
  have hc := (build_counters s w.rep w.rep.ephemeralGeometry
    (destroyFold w.rep.ephemeralActors w.backend) []).1
  rw [hb] at hc
  have : be'.deletions = (destroyFold w.rep.ephemeralActors w.backend).deletions := hc
  rw [hw]
  exact this.trans (destroyFold_deletions w.rep.ephemeralActors w.backend)

theorem display_err_deletions (s : SimState) (w we : World) (e : VTKError)
    (h : displayEphemeralGeometry s w = .error (e, we)) :
    we.backend.deletions = w.backend.deletions ++ w.rep.ephemeralActors := by
  obtain ⟨be', built, hb, hw⟩ := display_err_elim s w we e h
  have hc := (build_counters s w.rep w.rep.ephemeralGeometry
    (destroyFold w.rep.ephemeralActors w.backend) []).1
  rw [hb] at hc
  have : be'.deletions = (destroyFold w.rep.ephemeralActors w.backend).deletions := hc
  rw [hw]
  exact this.trans (destroyFold_deletions w.rep.ephemeralActors w.backend)

theorem display_nil (s : SimState) (w : World) (h : w.rep.ephemeralGeometry = []) :
    displayEphemeralGeometry s w =
      .ok { w with
              backend := destroyFold w.rep.ephemeralActors w.backend,
              rep := { w.rep with ephemeralActors := [], ephemeralGeometry := [] } } := by
  unfold displayEphemeralGeometry
  rw [h]
  rfl

theorem display_ok_frame (s : SimState) (w w' : World)
    (h : displayEphemeralGeometry s w = .ok w') :
    w'.rep.bodies = w.rep.bodies ∧ w'.rep.dynamicGeom = w.rep.dynamicGeom ∧
    w'.rep.renWinLive = w.rep.renWinLive ∧
    w'.rep.cameraNeedsToBeReset = w.rep.cameraNeedsToBeReset ∧
    w'.rep.ephemeralGeometry = [] ∧
    w'.backend.resetCameraCount = w.backend.resetCameraCount ∧
    w'.backend.renderCount = w.backend.renderCount ∧
    w.backend.nextId ≤ w'.backend.nextId ∧
    ∀ aid, aid ∉ w.rep.ephemeralActors → aid < w.backend.nextId →
      getActor w'.backend aid = getActor w.backend aid := by
  obtain ⟨be', built, hb, hw⟩ := display_ok_elim s w w' h
  have hcnt := build_counters s w.rep w.rep.ephemeralGeometry
    (destroyFold w.rep.ephemeralActors w.backend) []
  rw [hb] at hcnt
  obtain ⟨hdel, hreset, hrender, hnext⟩ := hcnt
  subst hw
  refine ⟨rfl, rfl, rfl, rfl, rfl, ?_, ?_, ?_, ?_⟩
  · exact (show be'.resetCameraCount = _ from hreset).trans
      (destroyFold_counts w.rep.ephemeralActors w.backend).1
  · exact (show be'.renderCount = _ from hrender).trans
      (destroyFold_counts w.rep.ephemeralActors w.backend).2
  · have h0 : (destroyFold w.rep.ephemeralActors w.backend).nextId = w.backend.nextId :=
      destroyFold_nextId w.rep.ephemeralActors w.backend
    exact h0 ▸ hnext
  · intro aid hnot hlt
    have h0 : (destroyFold w.rep.ephemeralActors w.backend).nextId = w.backend.nextId :=
      destroyFold_nextId w.rep.ephemeralActors w.backend
    have hga := build_getActor_lt s w.rep aid w.rep.ephemeralGeometry
      (destroyFold w.rep.ephemeralActors w.backend) [] (h0 ▸ hlt)
    rw [hb] at hga
    exact (show getActor be' aid = _ from hga).trans
      (destroyFold_getActor aid w.rep.ephemeralActors w.backend hnot)

theorem display_ok_length (s : SimState) (w w' : World)
    (h : displayEphemeralGeometry s w = .ok w') :
    w'.rep.ephemeralActors.length = w.rep.ephemeralGeometry.length := by
  obtain ⟨be', built, hb, hw⟩ := display_ok_elim s w w' h
  have := build_ok_length s w.rep w.rep.ephemeralGeometry
    (destroyFold w.rep.ephemeralActors w.backend) [] be' built hb
  subst hw
  simpa using this

theorem getActor_after_create (be : Backend) (f : Actor → Actor)
    (hfresh : ∀ p ∈ be.live, p.1 < be.nextId) :
    getActor (addActor be.nextId (modifyActor be.nextId f (vtkActorNew be).2)) be.nextId
      = some (f {}) := by
  rw [getActor_addActor, getActor_modifyActor_self, getActor_vtkActorNew_self be hfresh]
  rfl

theorem build_tail_getActor (s : SimState) (r : VTKReporterRep)
    (rest : List DecorativeGeometry) (be2 : Backend) (acc : List Nat)
    (be' : Backend) (built : List Nat)
    (h : buildEphemeralActors s r rest be2 acc = .ok (be', built))
    (aid : Nat) (hlt : aid < be2.nextId) : getActor be' aid = getActor be2 aid := by
  have hga := build_getActor_lt s r aid rest be2 acc hlt
  rw [h] at hga
  exact hga

theorem build_cons_head (s : SimState) (r : VTKReporterRep)
    (g : DecorativeGeometry) (rest : List DecorativeGeometry) (be : Backend)
    (acc : List Nat) (be' : Backend) (built : List Nat)
    (h : buildEphemeralActors s r (g :: rest) be acc = .ok (be', built))
    (hfresh : ∀ p ∈ be.live, p.1 < be.nextId)
    (X : Transform) (hX : s.getBodyTransform g.bodyId = some X)
    (c : Vec3) (hc : ephemeralColor r { g with transform := X.compose g.transform } = some c) :
    getActor be' be.nextId =
      some (ephemeralActorState { g with transform := X.compose g.transform } c) := by
  unfold buildEphemeralActors at h
  dsimp only [vtkActorNew] at h
  rw [hX] at h
  simp only [hc] at h
  have hga := build_tail_getActor s r rest _ (acc ++ [be.nextId]) be' built h
    be.nextId (Nat.lt_succ_self _)
  rw [hga]
  exact getActor_after_create be _ hfresh

/-! ### Stage collection lemmas -/

theorem foldl_append_flatten {α β : Type} (f : α → List β) :
    ∀ (L : List α) (acc : List β),
      L.foldl (fun acc st => acc ++ f st) acc = acc ++ (L.map f).flatten
  | [], acc => (List.append_nil acc).symm
  | x :: L, acc => by
    rw [List.foldl_cons, foldl_append_flatten f L (acc ++ f x), List.map_cons,
      List.flatten_cons, List.append_assoc]

theorem collectStageGeometry_eq (s : SimState) (w : World) :
    collectStageGeometry s w =
      { w with rep := { w.rep with
                          ephemeralGeometry := w.rep.ephemeralGeometry ++ stageGeomItems s } } := by
  unfold collectStageGeometry stageGeomItems
  rw [foldl_append_flatten]

theorem foldl_addEphemeralDecoration (w : World) :
    ∀ (items : List DecorativeGeometry),
      items.foldl (fun ww g => addEphemeralDecoration g ww) w =
        { w with rep := { w.rep with
                            ephemeralGeometry := w.rep.ephemeralGeometry ++ items } }
  | [] => by
    rw [List.append_nil]
    rfl
  | g :: items => by
    rw [List.foldl_cons, foldl_addEphemeralDecoration _ items]
    unfold addEphemeralDecoration
    rw [List.append_assoc]
    rfl

theorem stageRange_pairwise (current : Int) : (stageRange current).Pairwise (· < ·) := by
  unfold stageRange
  apply List.pairwise_map.mpr
  refine (List.pairwise_lt_range _).imp ?_
  intro a b hab
  simp only [StageModel]
  omega

theorem stageRange_mem (current st : Int) :
    st ∈ stageRange current ↔ StageModel ≤ st ∧ st ≤ current := by
  unfold stageRange
  simp only [List.mem_map, List.mem_range, StageModel]
  constructor
  · rintro ⟨k, hk, rfl⟩
    omega
  · rintro ⟨h1, h2⟩
    exact ⟨(st - 2).toNat, by omega, by omega⟩

/-! ### report decomposition -/

theorem rep_set_flag_self (r : VTKReporterRep) (h : r.cameraNeedsToBeReset = false) :
    { r with cameraNeedsToBeReset := false } = r := by
  cases r
  simp only at h
  rw [← h]

theorem report_ok_decomp (aa : Mat33 → Vec4) (s : SimState) (w w' : World)
    (hlive : w.rep.renWinLive = true) (h : report aa s w = .ok w') :
    ∃ w1 w2 w4, updateConfigurations aa s w = .ok w1 ∧
      updateDynamicGeom s w1 = .ok w2 ∧
      displayEphemeralGeometry s (collectStageGeometry s w2) = .ok w4 ∧
      w' = { rep := { w4.rep with cameraNeedsToBeReset := false },
             backend := renderB (if w4.rep.cameraNeedsToBeReset then resetCameraB w4.backend
               else w4.backend) } := by
  unfold report at h
  rw [if_neg (show ¬(w.rep.renWinLive = false) by simp [hlive])] at h
  cases h1 : updateConfigurations aa s w with
  | error e => simp [h1] at h
  | ok w1 =>
    simp only [h1] at h
    cases h2 : updateDynamicGeom s w1 with
    | error e => simp [h2] at h
    | ok w2 =>
      simp only [h2] at h
      cases h4 : displayEphemeralGeometry s (collectStageGeometry s w2) with
      | error e => simp [h4] at h
      | ok w4 =>
        simp only [h4] at h
        refine ⟨w1, w2, w4, rfl, h2, h4, ?_⟩
        injection h with h
        cases hflag : w4.rep.cameraNeedsToBeReset with
        | true =>
          rw [← h, hflag]
          rfl
        | false =>
          rw [← h, hflag, rep_set_flag_self w4.rep hflag]
          rfl

/-! ### getBody helpers -/

theorem getBody_valid (r : VTKReporterRep) (b : Int)
    (h1 : 0 ≤ b) :
    getBody r b = r.bodies.get? b.toNat := by
  unfold getBody
  rw [if_neg (by omega)]

/-! ### Projection helpers and operation inversion lemmas -/

theorem misc_nextId {be1 be2 : Backend} (h : be1.misc = be2.misc) :
    be1.nextId = be2.nextId := congrArg (fun t => t.1) h

theorem misc_scene {be1 be2 : Backend} (h : be1.misc = be2.misc) :
    be1.scene = be2.scene := congrArg (fun t => t.2.1) h

theorem misc_deletions {be1 be2 : Backend} (h : be1.misc = be2.misc) :
    be1.deletions = be2.deletions := congrArg (fun t => t.2.2.1) h

theorem misc_resetCameraCount {be1 be2 : Backend} (h : be1.misc = be2.misc) :
    be1.resetCameraCount = be2.resetCameraCount := congrArg (fun t => t.2.2.2.1) h

theorem misc_renderCount {be1 be2 : Backend} (h : be1.misc = be2.misc) :
    be1.renderCount = be2.renderCount := congrArg (fun t => t.2.2.2.2) h

theorem rbFrame_flag {r1 r2 : VTKReporterRep} (h : r1.rbFrame = r2.rbFrame) :
    r1.cameraNeedsToBeReset = r2.cameraNeedsToBeReset := congrArg (fun t => t.1) h

theorem rbFrame_bodies {r1 r2 : VTKReporterRep} (h : r1.rbFrame = r2.rbFrame) :
    r1.bodies = r2.bodies := congrArg (fun t => t.2.1) h

theorem rbFrame_ephemeralGeometry {r1 r2 : VTKReporterRep} (h : r1.rbFrame = r2.rbFrame) :
    r1.ephemeralGeometry = r2.ephemeralGeometry := congrArg (fun t => t.2.2.1) h

theorem rbFrame_ephemeralActors {r1 r2 : VTKReporterRep} (h : r1.rbFrame = r2.rbFrame) :
    r1.ephemeralActors = r2.ephemeralActors := congrArg (fun t => t.2.2.2.1) h

theorem rbFrame_renWinLive {r1 r2 : VTKReporterRep} (h : r1.rbFrame = r2.rbFrame) :
    r1.renWinLive = r2.renWinLive := congrArg (fun t => t.2.2.2.2.1) h

theorem rbFrame_dynKeys {r1 r2 : VTKReporterRep} (h : r1.rbFrame = r2.rbFrame) :
    r1.dynamicGeom.map dynKey = r2.dynamicGeom.map dynKey :=
  congrArg (fun t => t.2.2.2.2.2) h

theorem addDecoration_ok_elim (b : Int) (X : Transform) (g : DecorativeGeometry)
    (w w' : World) (h : addDecoration b X g w = .ok w') :
    ∃ pb, getBody w.rep b = some pb ∧
      w' = { rep := { w.rep with
                        bodies := w.rep.bodies.set b.toNat
                          { pb with
                              aList := pb.aList ++ [w.backend.nextId],
                              gList := pb.gList ++
                                [{ g with transform := X.compose g.transform }] },
                        cameraNeedsToBeReset := true },
             backend := addActor w.backend.nextId
               (modifyActor w.backend.nextId
                 (fun a => { a with
                               color := resolveColor
                                 { g with transform := X.compose g.transform }
                                 pb.defaultColorRGB,
                               opacity := resolveOpacity
                                 { g with transform := X.compose g.transform },
                               lineWidth := resolveLineWidth
                                 { g with transform := X.compose g.transform },
                               representation := convertToVTKRepresentation
                                 (resolveRepresentation
                                   { g with transform := X.compose g.transform }),
                               mapperInput := some (implementGeometry
                                 { g with transform := X.compose g.transform }) })
                 (vtkActorNew w.backend).2) } := by
  unfold addDecoration at h
  dsimp only [vtkActorNew] at h
  cases hg : getBody w.rep b with
  | none => simp [hg] at h
  | some pb =>
    simp only [hg] at h
    injection h with h
    exact ⟨pb, rfl, h.symm⟩

theorem setDefaultBodyColor_ok_elim (b : Int) (rgb : Vec3) (w w' : World)
    (h : setDefaultBodyColor b rgb w = .ok w') :
    ∃ pb, getBody w.rep b = some pb ∧
      w' = { w with rep := { w.rep with
               bodies := w.rep.bodies.set b.toNat { pb with defaultColorRGB := rgb } } } := by
  unfold setDefaultBodyColor at h
  cases hg : getBody w.rep b with
  | none => simp [hg] at h
  | some pb =>
    simp only [hg] at h
    injection h with h
    exact ⟨pb, rfl, h.symm⟩

theorem setBodyScale_ok_elim (b : Int) (sc : ℚ) (w w' : World)
    (h : setBodyScale b sc w = .ok w') :
    ∃ pb, getBody w.rep b = some pb ∧
      w' = { w with rep := { w.rep with
               bodies := w.rep.bodies.set b.toNat { pb with scale := sc } } } := by
  unfold setBodyScale at h
  cases hg : getBody w.rep b with
  | none => simp [hg] at h
  | some pb =>
    simp only [hg] at h
    injection h with h
    exact ⟨pb, rfl, h.symm⟩

theorem flatten_map_nil {α β : Type} (f : α → List β) (h : ∀ x, f x = []) :
    ∀ (L : List α), (L.map f).flatten = []
  | [] => rfl
  | x :: L => by rw [List.map_cons, List.flatten_cons, h x, List.nil_append,
      flatten_map_nil f h L]

theorem bodyIndexList_mem (n : Nat) (m : Nat) :
    Int.ofNat m ∈ bodyIndexList n ↔ 1 ≤ m ∧ m < n := by
  unfold bodyIndexList
  simp only [List.mem_map, List.mem_range'_1]
  constructor
  · rintro ⟨k, hk, hke⟩
    have hkm : k = m := Int.ofNat.inj hke
    omega
  · rintro ⟨h1, h2⟩
    exact ⟨m, by omega, rfl⟩

theorem bodyIndexList_nodup (n : Nat) : (bodyIndexList n).Nodup := by
  unfold bodyIndexList
  refine List.Nodup.map (fun a b hab => Int.ofNat.inj hab) ?_
  exact List.nodup_range' 1 (n - 1) 1 (by omega)

theorem getBody_ofNat (r : VTKReporterRep) (i : Nat) :
    getBody r (Int.ofNat i) = r.bodies.get? i := by
  unfold getBody
  rw [if_neg (by exact Int.not_lt.mpr (Int.ofNat_nonneg i))]
  rfl

/-! ## Claims -/

/-- Claim C9: for every state `s`, calling `report s` while the engine is in
the Disposed state (`renWin` null, backend released) is a silent no-op: it
returns without error and leaves the whole world — the scene, all three
geometry stores and the camera-reset flag — exactly unchanged. -/
theorem C9_report_disposed_noop (aa : Mat33 → Vec4) (s : SimState) (w : World)
    (h : w.rep.renWinLive = false) : report aa s w = .ok w := by
  unfold report
  rw [if_pos h]

theorem C9_report_disposed_noop_witness :
    report witnessAA witnessState (deletePointers (initialWorld [])) =
      .ok (deletePointers (initialWorld [])) :=
  C9_report_disposed_noop witnessAA witnessState _ (by decide)

/-- Claim C10: `addEphemeralDecoration` only appends the descriptor to the
pending queue — it creates no proxy, leaves the backend (and hence the scene)
untouched and never sets the camera-needs-reset flag.  Consequently a
`report` issued while the flag is clear performs no camera reframe, and the
flag is set only by `addDecoration`, `addRubberBandLine`, `resetCamera` and
construction (`setDefaultBodyColor` and `setBodyScale` leave it alone). -/
theorem C10_addEphemeral_appends_only :
    (∀ (g : DecorativeGeometry) (w : World),
      addEphemeralDecoration g w =
        { w with rep := { w.rep with
                            ephemeralGeometry := w.rep.ephemeralGeometry ++ [g] } }) ∧
    (∀ g w, (addEphemeralDecoration g w).backend = w.backend) ∧
    (∀ g w, (addEphemeralDecoration g w).rep.cameraNeedsToBeReset
      = w.rep.cameraNeedsToBeReset) ∧
    (∀ aa s (w w' : World), w.rep.cameraNeedsToBeReset = false → report aa s w = .ok w' →
      w'.backend.resetCameraCount = w.backend.resetCameraCount) ∧
    (∀ b X d w w', addDecoration b X d w = .ok w' →
      w'.rep.cameraNeedsToBeReset = true) ∧
    (∀ b1 st1 b2 st2 d w,
      (addRubberBandLine b1 st1 b2 st2 d w).rep.cameraNeedsToBeReset = true) ∧
    (∀ w, (resetCamera w).rep.cameraNeedsToBeReset = true) ∧
    (∀ parents, (initialWorld parents).rep.cameraNeedsToBeReset = true) ∧
    (∀ b rgb w w', setDefaultBodyColor b rgb w = .ok w' →
      w'.rep.cameraNeedsToBeReset = w.rep.cameraNeedsToBeReset) ∧
    (∀ b sc w w', setBodyScale b sc w = .ok w' →
      w'.rep.cameraNeedsToBeReset = w.rep.cameraNeedsToBeReset) := by
  refine ⟨fun g w => rfl, fun g w => rfl, fun g w => rfl, ?_, ?_, fun _ _ _ _ _ _ => rfl,
    fun _ => rfl, fun _ => rfl, ?_, ?_⟩
  · intro aa s w w' hflag hok
    by_cases hlive : w.rep.renWinLive = true
    · obtain ⟨w1, w2, w4, h1, h2, h4, hw'⟩ := report_ok_decomp aa s w w' hlive hok
      have hw1 : w1.rep = w.rep := (configLoop_frame aa s _ w w1 h1).1
      have hw2 := rbLoop_frame s _ w1 w2 h2
      have hflag4 : w4.rep.cameraNeedsToBeReset = false := by
        have hc : (collectStageGeometry s w2).rep.cameraNeedsToBeReset
            = w2.rep.cameraNeedsToBeReset := by
          rw [collectStageGeometry_eq]
        rw [(display_ok_frame s _ w4 h4).2.2.2.1, hc, rbFrame_flag hw2.1, hw1, hflag]
      have hreset4 : w4.backend.resetCameraCount = w.backend.resetCameraCount := by
        have hc : (collectStageGeometry s w2).backend = w2.backend := by
          rw [collectStageGeometry_eq]
        rw [(display_ok_frame s _ w4 h4).2.2.2.2.2.1, hc,
          misc_resetCameraCount hw2.2.1,
          misc_resetCameraCount (configLoop_frame aa s _ w w1 h1).2]
      rw [hw', hflag4]
      simpa using hreset4
    · have : w.rep.renWinLive = false := by
        cases hv : w.rep.renWinLive
        · rfl
        · exact absurd hv hlive
      rw [C9_report_disposed_noop aa s w this] at hok
      injection hok with hok
      rw [← hok]
  · intro b X d w w' h
    obtain ⟨pb, _, hw⟩ := addDecoration_ok_elim b X d w w' h
    rw [hw]
  · intro b rgb w w' h
    obtain ⟨pb, _, hw⟩ := setDefaultBodyColor_ok_elim b rgb w w' h
    rw [hw]
  · intro b sc w w' h
    obtain ⟨pb, _, hw⟩ := setBodyScale_ok_elim b sc w w' h
    rw [hw]

theorem C10_addEphemeral_appends_only_witness :
    (addEphemeralDecoration
        { shape := .sphere 1, transform := Transform.identity, color := ⟨-1, -1, -1⟩,
          opacity := -1, lineThickness := -1, representation := -1, bodyId := 0 }
        (initialWorld [])).backend = (initialWorld []).backend :=
  C10_addEphemeral_appends_only.2.1 _ _

/-- Claim C6: on every `report s`, before the ephemeral display pass, the
engine collects the simulation-contributed ephemeral geometry of every
computation stage from `Stage::Model` — the lowest runtime stage, at which
state-dependent geometry is defined — up to the stage realized in `s`, once
per cycle, in strictly increasing stage order, enqueuing the items exactly as
if they had come through `addEphemeralDecoration`; a successful `report` then
displays exactly those items together with the previously pending queue (one
proxy per item) and consumes the queue. -/
theorem C6_stage_collection (s : SimState) :
    (∀ w, collectStageGeometry s w =
      (stageGeomItems s).foldl (fun ww g => addEphemeralDecoration g ww) w) ∧
    (stageRange s.systemStage).Pairwise (· < ·) ∧
    (∀ st, st ∈ stageRange s.systemStage ↔ StageModel ≤ st ∧ st ≤ s.systemStage) ∧
    stageGeomItems s = ((stageRange s.systemStage).map s.decorativeGeometry).flatten ∧
    (∀ aa (w w' : World), w.rep.renWinLive = true → report aa s w = .ok w' →
      w'.rep.ephemeralActors.length =
        w.rep.ephemeralGeometry.length + (stageGeomItems s).length ∧
      w'.rep.ephemeralGeometry = []) := by
  refine ⟨?_, stageRange_pairwise s.systemStage, fun st => stageRange_mem s.systemStage st,
    rfl, ?_⟩
  · intro w
    rw [collectStageGeometry_eq, foldl_addEphemeralDecoration]
  · intro aa w w' hlive hok
    obtain ⟨w1, w2, w4, h1, h2, h4, hw'⟩ := report_ok_decomp aa s w w' hlive hok
    have hw1 : w1.rep = w.rep := (configLoop_frame aa s _ w w1 h1).1
    have hw2 := (rbLoop_frame s _ w1 w2 h2).1
    have heq : (collectStageGeometry s w2).rep.ephemeralGeometry =
        w.rep.ephemeralGeometry ++ stageGeomItems s := by
      rw [collectStageGeometry_eq]
      show w2.rep.ephemeralGeometry ++ stageGeomItems s = _
      rw [rbFrame_ephemeralGeometry hw2, hw1]
    have hlen := display_ok_length s _ w4 h4
    rw [heq, List.length_append] at hlen
    constructor
    · rw [hw']
      exact hlen
    · rw [hw']
      exact (display_ok_frame s _ w4 h4).2.2.2.2.1

theorem C6_stage_collection_witness :
    (okWorld (report witnessAA
        { transforms := [Transform.identity], systemStage := StageModel + 1,
          decorativeGeometry := fun st => if st = StageModel then [witnessGeom0] else [] }
        (initialWorld []))).map
      (fun u => (u.rep.ephemeralActors.length, u.rep.ephemeralGeometry)) =
      some (1, []) := by
  cases hrep : report witnessAA
      { transforms := [Transform.identity], systemStage := StageModel + 1,
        decorativeGeometry := fun st => if st = StageModel then [witnessGeom0] else [] }
      (initialWorld []) with
  | error e =>
    have hsome : (okWorld (report witnessAA
        { transforms := [Transform.identity], systemStage := StageModel + 1,
          decorativeGeometry := fun st => if st = StageModel then [witnessGeom0] else [] }
        (initialWorld []))).isSome = true := by decide
    rw [hrep] at hsome
    simp [okWorld] at hsome
  | ok w' =>
    have h := (C6_stage_collection _).2.2.2.2 witnessAA (initialWorld []) w' (by decide) hrep
    have hitems : (stageGeomItems
        { transforms := [Transform.identity], systemStage := StageModel + 1,
          decorativeGeometry := fun st => if st = StageModel then [witnessGeom0] else [] }
        : List DecorativeGeometry).length = 1 := by decide
    have hlen0 : (initialWorld []).rep.ephemeralGeometry.length = 0 := by decide
    show some (w'.rep.ephemeralActors.length, w'.rep.ephemeralGeometry) = some (1, [])
    rw [h.1, h.2, hitems, hlen0]

/-- Claim C4: at the moment a proxy is created (`addDecoration`) or rebuilt
(`displayEphemeralGeometry`), each style field resolves to the explicit value
when set, otherwise to the owning body's current default colour (colour) or
the fixed constants opacity 1, line width 1, representation surface.  In
particular an unset colour on a body whose default is `(0,1,0)` resolves to
`(0,1,0)`, and an explicit colour `(1,0,0)` resolves to `(1,0,0)` regardless
of the body default. -/
theorem C4_style_resolution :
    (∀ (g : DecorativeGeometry) (fallback : Vec3),
      (g.color.x = -1 → resolveColor g fallback = fallback) ∧
      (g.color.x ≠ -1 → resolveColor g fallback = g.color)) ∧
    (∀ g : DecorativeGeometry,
      (g.opacity = -1 → resolveOpacity g = 1) ∧
      (g.opacity ≠ -1 → resolveOpacity g = g.opacity)) ∧
    (∀ g : DecorativeGeometry,
      (g.lineThickness = -1 → resolveLineWidth g = 1) ∧
      (g.lineThickness ≠ -1 → resolveLineWidth g = g.lineThickness)) ∧
    (∀ g : DecorativeGeometry,
      (g.representation = -1 →
        convertToVTKRepresentation (resolveRepresentation g) = VTK_SURFACE) ∧
      (g.representation ≠ -1 → resolveRepresentation g = g.representation)) ∧
    (∀ w (b : Int) X g w' pb, addDecoration b X g w = .ok w' →
      getBody w.rep b = some pb →
      (∀ p ∈ w.backend.live, p.1 < w.backend.nextId) →
      getActor w'.backend w.backend.nextId =
        some (decorationActorState { g with transform := X.compose g.transform }
          pb.defaultColorRGB)) ∧
    (∀ s r g rest be acc be' built X c,
      buildEphemeralActors s r (g :: rest) be acc = .ok (be', built) →
      (∀ p ∈ be.live, p.1 < be.nextId) →
      s.getBodyTransform g.bodyId = some X →
      ephemeralColor r { g with transform := X.compose g.transform } = some c →
      getActor be' be.nextId =
        some (ephemeralActorState { g with transform := X.compose g.transform } c)) ∧
    (∀ r (g : DecorativeGeometry),
      (g.color.x = -1 →
        ephemeralColor r g = (getBody r g.bodyId).map PerBodyInfo.defaultColorRGB) ∧
      (g.color.x ≠ -1 → ephemeralColor r g = some g.color)) ∧
    (∀ g : DecorativeGeometry, g.color.x = -1 → resolveColor g ⟨0, 1, 0⟩ = ⟨0, 1, 0⟩) ∧
    (∀ (g : DecorativeGeometry) fallback, g.color = ⟨1, 0, 0⟩ →
      resolveColor g fallback = ⟨1, 0, 0⟩) := by
  refine ⟨?_, ?_, ?_, ?_, ?_, ?_, ?_, ?_, ?_⟩
  · intro g fallback
    exact ⟨fun h => by simp [resolveColor, h], fun h => by simp [resolveColor, h]⟩
  · intro g
    exact ⟨fun h => by simp [resolveOpacity, h], fun h => by simp [resolveOpacity, h]⟩
  · intro g
    exact ⟨fun h => by simp [resolveLineWidth, h], fun h => by simp [resolveLineWidth, h]⟩
  · intro g
    refine ⟨fun h => ?_, fun h => by simp [resolveRepresentation, h]⟩
    simp [resolveRepresentation, convertToVTKRepresentation, h,
      DrawPoints, DrawWireframe, DrawSurface, VTK_SURFACE]
  · intro w b X g w' pb h hpb hfresh
    obtain ⟨pb', hpb', hw⟩ := addDecoration_ok_elim b X g w w' h
    have hpp : pb = pb' := by rw [hpb] at hpb'; exact Option.some.inj hpb'
    subst hpp
    rw [hw]
    exact getActor_after_create w.backend _ hfresh
  · intro s r g rest be acc be' built X c h hfresh hX hc
    exact build_cons_head s r g rest be acc be' built h hfresh X hX c hc
  · intro r g
    exact ⟨fun h => by simp [ephemeralColor, h], fun h => by simp [ephemeralColor, h]⟩
  · intro g h
    simp [resolveColor, h]
  · intro g fallback h
    unfold resolveColor
    rw [h]
    norm_num

theorem C4_style_resolution_witness :
    resolveColor witnessGeom ⟨0, 1, 0⟩ = ⟨0, 1, 0⟩ ∧
    (okWorld (addDecoration 1 Transform.identity witnessGeom (initialWorld [0]))).bind
        (fun u => getActor u.backend 0) =
      some (decorationActorState
        { witnessGeom with
            transform := Transform.identity.compose witnessGeom.transform } Red) := by
  constructor
  · exact (C4_style_resolution.2.2.2.2.2.2.2.1 witnessGeom (by decide))
  · cases hadd : addDecoration 1 Transform.identity witnessGeom (initialWorld [0]) with
    | error e =>
      have hsome : (okWorld (addDecoration 1 Transform.identity witnessGeom
          (initialWorld [0]))).isSome = true := by decide
      rw [hadd] at hsome
      simp [okWorld] at hsome
    | ok w' =>
      have := C4_style_resolution.2.2.2.2.1 (initialWorld [0]) 1 Transform.identity
        witnessGeom w'
        { aList := [], gList := [], defaultColorRGB := Red, scale := 0 }
        hadd (by decide) (by decide)
      exact this

theorem reportTail_nextId (w4 : World) :
    (renderB (if w4.rep.cameraNeedsToBeReset then resetCameraB w4.backend
      else w4.backend)).nextId = w4.backend.nextId := by
  cases hf : w4.rep.cameraNeedsToBeReset <;> simp [hf, renderB, resetCameraB]

theorem reportTail_deletions (w4 : World) :
    (renderB (if w4.rep.cameraNeedsToBeReset then resetCameraB w4.backend
      else w4.backend)).deletions = w4.backend.deletions := by
  cases hf : w4.rep.cameraNeedsToBeReset <;> simp [hf, renderB, resetCameraB]

theorem reportTail_getActor (w4 : World) (aid : Nat) :
    getActor (renderB (if w4.rep.cameraNeedsToBeReset then resetCameraB w4.backend
      else w4.backend)) aid = getActor w4.backend aid := by
  cases hf : w4.rep.cameraNeedsToBeReset <;> simp [hf, renderB, resetCameraB, getActor]

/-- Cumulative state facts about one successful `report` from a live engine. -/
theorem report_ok_state (aa : Mat33 → Vec4) (s : SimState) (w w' : World)
    (hlive : w.rep.renWinLive = true) (hok : report aa s w = .ok w') :
    w'.rep.renWinLive = true ∧
    w'.rep.bodies = w.rep.bodies ∧
    w'.rep.ephemeralGeometry = [] ∧
    w'.rep.dynamicGeom.map dynKey = w.rep.dynamicGeom.map dynKey ∧
    w.backend.nextId ≤ w'.backend.nextId := by
  obtain ⟨w1, w2, w4, h1, h2, h4, hw'⟩ := report_ok_decomp aa s w w' hlive hok
  have hf1 := configLoop_frame aa s _ w w1 h1
  have hf2 := rbLoop_frame s _ w1 w2 h2
  have hcrep : (collectStageGeometry s w2).rep.renWinLive = w2.rep.renWinLive := by
    rw [collectStageGeometry_eq]
  have hcb : (collectStageGeometry s w2).rep.bodies = w2.rep.bodies := by
    rw [collectStageGeometry_eq]
  have hcd : (collectStageGeometry s w2).rep.dynamicGeom = w2.rep.dynamicGeom := by
    rw [collectStageGeometry_eq]
  have hcbe : (collectStageGeometry s w2).backend = w2.backend := by
    rw [collectStageGeometry_eq]
  have hd := display_ok_frame s _ w4 h4
  refine ⟨?_, ?_, ?_, ?_, ?_⟩
  · rw [hw']
    show w4.rep.renWinLive = true
    rw [hd.2.2.1, hcrep, rbFrame_renWinLive hf2.1, hf1.1, hlive]
  · rw [hw']
    show w4.rep.bodies = w.rep.bodies
    rw [hd.1, hcb, rbFrame_bodies hf2.1, hf1.1]
  · rw [hw']
    exact hd.2.2.2.2.1
  · rw [hw']
    show w4.rep.dynamicGeom.map dynKey = _
    rw [hd.2.1, hcd, rbFrame_dynKeys hf2.1, hf1.1]
  · rw [hw']
    show w.backend.nextId ≤ (renderB (if w4.rep.cameraNeedsToBeReset then
      resetCameraB w4.backend else w4.backend)).nextId
    rw [reportTail_nextId w4]
    calc w.backend.nextId = w1.backend.nextId := (misc_nextId hf1.2).symm
      _ = w2.backend.nextId := (misc_nextId hf2.2.1).symm
      _ = (collectStageGeometry s w2).backend.nextId := by rw [hcbe]
      _ ≤ w4.backend.nextId := hd.2.2.2.2.2.2.2.1

/-- Claim C3: at most one generation of ephemeral proxies is live.  Every
ephemeral display pass first releases every proxy of the previous pass —
unconditionally, even when the pending queue is empty, and even when the pass
later fails — and calling `report` twice with no intervening
`addEphemeralDecoration` and no simulation-contributed geometry for the second
call leaves zero live ephemeral proxies after the second call, the first
call's generation having been released. -/
theorem C3_ephemeral_single_generation :
    (∀ s (w w' : World), displayEphemeralGeometry s w = .ok w' →
      w'.backend.deletions = w.backend.deletions ++ w.rep.ephemeralActors) ∧
    (∀ s (w we : World) e, displayEphemeralGeometry s w = .error (e, we) →
      we.backend.deletions = w.backend.deletions ++ w.rep.ephemeralActors) ∧
    (∀ aa s1 s2 (w w1 w2 : World), w.rep.renWinLive = true →
      report aa s1 w = .ok w1 → report aa s2 w1 = .ok w2 →
      (∀ st, s2.decorativeGeometry st = []) →
      w2.rep.ephemeralActors = [] ∧
      ∀ aid ∈ w1.rep.ephemeralActors, aid ∈ w2.backend.deletions) := by
  refine ⟨fun s w w' h => display_ok_deletions s w w' h,
    fun s w we e h => display_err_deletions s w we e h, ?_⟩
  intro aa s1 s2 w w1 w2 hlive hr1 hr2 hs2
  have hlive1 : w1.rep.renWinLive = true :=
    (report_ok_state aa s1 w w1 hlive hr1).1
  have heph1 : w1.rep.ephemeralGeometry = [] :=
    (report_ok_state aa s1 w w1 hlive hr1).2.2.1
  obtain ⟨wa, wb, w4, h1, h2, h4, hw2⟩ := report_ok_decomp aa s2 w1 w2 hlive1 hr2
  have hfa := configLoop_frame aa s2 _ w1 wa h1
  have hfb := rbLoop_frame s2 _ wa wb h2
  have hpend : (collectStageGeometry s2 wb).rep.ephemeralGeometry = [] := by
    rw [collectStageGeometry_eq]
    show wb.rep.ephemeralGeometry ++ stageGeomItems s2 = []
    have : stageGeomItems s2 = [] := flatten_map_nil s2.decorativeGeometry hs2 _
    rw [this, List.append_nil, rbFrame_ephemeralGeometry hfb.1, hfa.1, heph1]
  have hactors : (collectStageGeometry s2 wb).rep.ephemeralActors
      = w1.rep.ephemeralActors := by
    rw [collectStageGeometry_eq]
    show wb.rep.ephemeralActors = _
    rw [rbFrame_ephemeralActors hfb.1, hfa.1]
  constructor
  · rw [display_nil s2 _ hpend] at h4
    injection h4 with h4
    rw [hw2]
    show w4.rep.ephemeralActors = []
    rw [← h4]
  · intro aid haid
    have hdel4 := display_ok_deletions s2 _ w4 h4
    rw [hactors] at hdel4
    rw [hw2]
    show aid ∈ (renderB (if w4.rep.cameraNeedsToBeReset then resetCameraB w4.backend
      else w4.backend)).deletions
    rw [reportTail_deletions w4, hdel4]
    exact List.mem_append_right _ haid

theorem C3_ephemeral_single_generation_witness :
    ((okWorld (report witnessAA witnessState (addEphemeralDecoration witnessGeom0
        (initialWorld [])))).bind (fun w1 =>
      (okWorld (report witnessAA witnessState w1)).map (fun w2 =>
        (w2.rep.ephemeralActors, w1.rep.ephemeralActors.all
          (fun aid => decide (aid ∈ w2.backend.deletions)))))) = some ([], true) := by
  cases hr1 : report witnessAA witnessState (addEphemeralDecoration witnessGeom0
      (initialWorld [])) with
  | error e =>
    have hsome : (okWorld (report witnessAA witnessState (addEphemeralDecoration
        witnessGeom0 (initialWorld [])))).isSome = true := by decide
    rw [hr1] at hsome
    simp [okWorld] at hsome
  | ok w1 =>
    cases hr2 : report witnessAA witnessState w1 with
    | error e =>
      have hsome : ((okWorld (report witnessAA witnessState (addEphemeralDecoration
          witnessGeom0 (initialWorld [])))).bind (fun u =>
            okWorld (report witnessAA witnessState u))).isSome = true := by decide
      rw [hr1] at hsome
      simp only [okWorld, Option.some_bind] at hsome
      rw [hr2] at hsome
      simp [okWorld] at hsome
    | ok w2 =>
      have h := C3_ephemeral_single_generation.2.2 witnessAA witnessState witnessState
        (addEphemeralDecoration witnessGeom0 (initialWorld [])) w1 w2 (by decide)
        hr1 hr2 (fun st => rfl)
      show Option.map (fun w2 => (w2.rep.ephemeralActors, w1.rep.ephemeralActors.all
          (fun aid => decide (aid ∈ w2.backend.deletions))))
        (okWorld (report witnessAA witnessState w1)) = some ([], true)
      rw [hr2]
      show some ((w2.rep.ephemeralActors, w1.rep.ephemeralActors.all
        (fun aid => decide (aid ∈ w2.backend.deletions)))) = some ([], true)
      rw [h.1]
      have hall : w1.rep.ephemeralActors.all
          (fun aid => decide (aid ∈ w2.backend.deletions)) = true := by
        rw [List.all_eq_true]
        intro aid haid
        exact decide_eq_true (h.2 aid haid)
      rw [hall]

theorem getBody_some_elim (r : VTKReporterRep) (b : Int) (pb : PerBodyInfo)
    (h : getBody r b = some pb) : ¬b < 0 ∧ r.bodies.get? b.toNat = some pb := by
  unfold getBody at h
  split_ifs at h with hb
  exact ⟨hb, h⟩

theorem aList_disjoint_of_nodup (r : VTKReporterRep)
    (hnd : ((r.bodies.map PerBodyInfo.aList).flatten).Nodup)
    (i k : Nat) (hik : i ≠ k) (pbi pbk : PerBodyInfo)
    (hpi : r.bodies.get? i = some pbi) (hpk : r.bodies.get? k = some pbk) :
    ∀ aid ∈ pbi.aList, aid ∉ pbk.aList := by
  have hpair := (List.nodup_flatten.mp hnd).2
  have hi' : (r.bodies.map PerBodyInfo.aList).get? i = some pbi.aList := by
    rw [List.get?_map, hpi]
    rfl
  have hk' : (r.bodies.map PerBodyInfo.aList).get? k = some pbk.aList := by
    rw [List.get?_map, hpk]
    rfl
  obtain ⟨hilt, hig⟩ := List.get?_eq_some.mp hi'
  obtain ⟨hklt, hkg⟩ := List.get?_eq_some.mp hk'
  rcases Nat.lt_or_ge i k with hlt | hge
  · have hd := List.pairwise_iff_get.mp hpair ⟨i, hilt⟩ ⟨k, hklt⟩ hlt
    rw [hig, hkg] at hd
    intro aid ha hb
    exact hd ha hb
  · have hkl : k < i := by omega
    have hd := List.pairwise_iff_get.mp hpair ⟨k, hklt⟩ ⟨i, hilt⟩ hkl
    rw [hig, hkg] at hd
    intro aid ha hb
    exact hd hb ha

theorem mem_aList_flatten (r : VTKReporterRep) (i : Nat) (pb : PerBodyInfo)
    (hp : r.bodies.get? i = some pb) (aid : Nat) (ha : aid ∈ pb.aList) :
    aid ∈ (r.bodies.map PerBodyInfo.aList).flatten := by
  rw [List.mem_flatten]
  exact ⟨pb.aList, List.mem_map.mpr ⟨pb, List.get?_mem hp, rfl⟩, ha⟩

/-- Claim C1: during a successful `report s` from a live engine, every proxy
owned by a non-ground body's decoration entries receives that body's current
transform: its position is set to the body's translation, and its orientation
is reset and then rotated once by the angle (converted to degrees) and axis
extracted from the body's rotation — so the stored orientation recovers the
extracted angle+axis exactly (the exact-arithmetic form of the
floating-point-tolerance clause).  This covers `addDecoration` followed by
`report`, since the postcondition holds for every decoration proxy. -/
theorem C1_report_applies_body_transforms (aa : Mat33 → Vec4) (s : SimState)
    (w w' : World)
    (hlive : w.rep.renWinLive = true)
    (hok : report aa s w = .ok w')
    (hnd : ((w.rep.bodies.map PerBodyInfo.aList).flatten).Nodup)
    (hdynd : ∀ info ∈ w.rep.dynamicGeom,
      info.actor ∉ (w.rep.bodies.map PerBodyInfo.aList).flatten)
    (heph : ∀ a ∈ w.rep.ephemeralActors,
      a ∉ (w.rep.bodies.map PerBodyInfo.aList).flatten)
    (hbound : ∀ a ∈ (w.rep.bodies.map PerBodyInfo.aList).flatten,
      a < w.backend.nextId) :
    ∀ (i : Nat), 1 ≤ i → i < s.nBodies →
    ∀ pb, w.rep.bodies.get? i = some pb →
    ∀ X, s.getBodyTransform (Int.ofNat i) = some X →
    ∀ aid ∈ pb.aList,
      getActor w'.backend aid =
        (getActor w.backend aid).map (applyConfiguration aa X) ∧
      ∀ a, getActor w'.backend aid = some a →
        a.position = X.trans ∧
        a.orientationOps = [⟨(aa X.rot).w * RadiansToDegrees,
          (aa X.rot).x, (aa X.rot).y, (aa X.rot).z⟩] ∧
        recoverAngleAxis a.orientationOps = some (aa X.rot) := by
  intro i hi1 hin pb hpb X hX aid haid
  obtain ⟨w1, w2, w4, h1, h2, h4, hw'⟩ := report_ok_decomp aa s w w' hlive hok
  have hfa := configLoop_frame aa s _ w w1 h1
  have hfb := rbLoop_frame s _ w1 w2 h2
  have hflat : aid ∈ (w.rep.bodies.map PerBodyInfo.aList).flatten :=
    mem_aList_flatten w.rep i pb hpb aid haid
  have hpbI : getBody w.rep (Int.ofNat i) = some pb := by
    rw [getBody_ofNat]
    exact hpb
  -- phase 1 applies the configuration to aid
  have hmem : Int.ofNat i ∈ bodyIndexList s.nBodies :=
    (bodyIndexList_mem s.nBodies i).mpr ⟨hi1, hin⟩
  have hother : ∀ k ∈ bodyIndexList s.nBodies, k ≠ Int.ofNat i →
      ∀ pbk, getBody w.rep k = some pbk → aid ∉ pbk.aList := by
    intro k hk hki pbk hpbk
    obtain ⟨hk0, hkget⟩ := getBody_some_elim w.rep k pbk hpbk
    have hik : i ≠ k.toNat := by
      intro hc
      apply hki
      rw [← Int.toNat_of_nonneg (by omega : (0 : Int) ≤ k), ← hc]
      rfl
    exact aList_disjoint_of_nodup w.rep hnd i k.toNat hik pb pbk hpb hkget aid haid
  have hcfg : getActor w1.backend aid =
      (getActor w.backend aid).map (applyConfiguration aa X) :=
    configLoop_getActor_mem aa s aid (Int.ofNat i) X hX (bodyIndexList s.nBodies)
      w w1 h1 hmem pb hpbI haid hother
  -- phase 2 does not touch decoration actors
  have hrb : getActor w2.backend aid = getActor w1.backend aid := by
    refine rbLoop_getActor_notactor s aid _ w1 w2 h2 ?_
    intro j hj infoj hjg
    have hmemj : infoj ∈ w.rep.dynamicGeom := by
      rw [← hfa.1]
      exact List.get?_mem hjg
    intro hc
    exact hdynd infoj hmemj (hc ▸ hflat)
  -- the ephemeral pass does not touch decoration actors
  have hcw2 : (collectStageGeometry s w2).backend = w2.backend := by
    rw [collectStageGeometry_eq]
  have hcw2a : (collectStageGeometry s w2).rep.ephemeralActors
      = w.rep.ephemeralActors := by
    rw [collectStageGeometry_eq]
    show w2.rep.ephemeralActors = _
    rw [rbFrame_ephemeralActors hfb.1, hfa.1]
  have hdisp : getActor w4.backend aid = getActor (collectStageGeometry s w2).backend aid := by
    refine (display_ok_frame s _ w4 h4).2.2.2.2.2.2.2.2 aid ?_ ?_
    · rw [hcw2a]
      intro hc
      exact heph aid hc hflat
    · rw [hcw2]
      have : w2.backend.nextId = w.backend.nextId := by
        rw [misc_nextId hfb.2.1, misc_nextId hfa.2]
      rw [this]
      exact hbound aid hflat
  -- the camera/render tail does not touch actors
  have hchain : getActor w'.backend aid =
      (getActor w.backend aid).map (applyConfiguration aa X) := by
    rw [hw']
    show getActor (renderB (if w4.rep.cameraNeedsToBeReset then resetCameraB w4.backend
      else w4.backend)) aid = _
    rw [reportTail_getActor w4 aid, hdisp, hcw2, hrb, hcfg]
  refine ⟨hchain, ?_⟩
  intro a ha
  rw [hchain] at ha
  cases hga : getActor w.backend aid with
  | none =>
    rw [hga] at ha
    exact absurd ha (by simp)
  | some a0 =>
    rw [hga] at ha
    have haa : a = applyConfiguration aa X a0 := (Option.some.inj ha).symm
    subst haa
    refine ⟨rfl, rfl, ?_⟩
    have hk : RadiansToDegrees ≠ 0 := by norm_num [RadiansToDegrees]
    show some (⟨(aa X.rot).w * RadiansToDegrees / RadiansToDegrees,
      (aa X.rot).x, (aa X.rot).y, (aa X.rot).z⟩ : Vec4) = some (aa X.rot)
    rw [mul_div_cancel_right₀ _ hk]

theorem C1_report_applies_body_transforms_witness :
    ((okWorld (report witnessAA witnessStateC1 witnessWorldC1)).bind
      (fun u => (getActor u.backend 0).map
        (fun a => (a.position, recoverAngleAxis a.orientationOps)))) =
      some (⟨5, 6, 7⟩, some ⟨0, 1, 0, 0⟩) := by
  cases hrep : report witnessAA witnessStateC1 witnessWorldC1 with
  | error e =>
    have hsome : (okWorld (report witnessAA witnessStateC1 witnessWorldC1)).isSome
        = true := by decide
    rw [hrep] at hsome
    simp [okWorld] at hsome
  | ok w' =>
    have h := C1_report_applies_body_transforms witnessAA witnessStateC1 witnessWorldC1 w'
      (by decide) hrep (by decide) (by decide) (by decide) (by decide)
      1 (by decide) (by decide)
      { aList := [0], gList := [], defaultColorRGB := Red, scale := 0 } (by decide)
      { rot := Mat33.identity, trans := ⟨5, 6, 7⟩ } (by decide)
      0 (by decide)
    show (getActor w'.backend 0).map
      (fun a => (a.position, recoverAngleAxis a.orientationOps)) = _
    cases hga : getActor w'.backend 0 with
    | none =>
      have hs : (getActor witnessWorldC1.backend 0).isSome = true := by decide
      have h1 := h.1
      rw [hga] at h1
      cases hx : getActor witnessWorldC1.backend 0 with
      | none => rw [hx] at hs; simp at hs
      | some a0 => rw [hx] at h1; simp at h1
    | some a =>
      have hprops := h.2 a hga
      show some (a.position, recoverAngleAxis a.orientationOps) = _
      rw [hprops.1, hprops.2.2]
      rfl

/-! ### Freshness of the ephemeral generation built by one display pass -/

theorem build_ok_mem_built (s : SimState) (r : VTKReporterRep) :
    ∀ (gl : List DecorativeGeometry) (be : Backend) (acc : List Nat) (be' : Backend)
      (built : List Nat), buildEphemeralActors s r gl be acc = .ok (be', built) →
      ∀ a ∈ built, a ∈ acc ∨ be.nextId ≤ a
  | [], be, acc, be', built, h, a, ha => by
    injection h with h
    injection h with h1 h2
    exact Or.inl (h2 ▸ ha)
  | g :: rest, be, acc, be', built, h, a, ha => by
    unfold buildEphemeralActors at h
    dsimp only [vtkActorNew] at h
    cases hX : s.getBodyTransform g.bodyId with
    | none => simp [hX] at h
    | some X =>
      simp only [hX] at h
      cases hc : ephemeralColor r { g with transform := X.compose g.transform } with
      | none => simp [hc] at h
      | some color =>
        simp only [hc] at h
        rcases build_ok_mem_built s r rest _ (acc ++ [be.nextId]) be' built h a ha with
          hacc | hge
        · rcases List.mem_append.mp hacc with h1 | h1
          · exact Or.inl h1
          · exact Or.inr (List.mem_singleton.mp h1 ▸ Nat.le_refl _)
        · exact Or.inr (Nat.le_of_succ_le hge)

theorem display_ok_ephActors_ge (s : SimState) (w w' : World)
    (h : displayEphemeralGeometry s w = .ok w') :
    ∀ a ∈ w'.rep.ephemeralActors, w.backend.nextId ≤ a := by
  obtain ⟨be', built, hb, hw⟩ := display_ok_elim s w w' h
  intro a ha
  rw [hw] at ha
  rcases build_ok_mem_built s w.rep w.rep.ephemeralGeometry _ [] be' built hb a ha with
    h0 | hge
  · exact absurd h0 (List.not_mem_nil a)
  · rw [destroyFold_nextId] at hge
    exact hge

/-- Every ephemeral actor alive after a successful `report` was allocated
during that call (its id is at least the incoming allocation counter). -/
theorem report_ok_ephActors_ge (aa : Mat33 → Vec4) (s : SimState) (w w' : World)
    (hlive : w.rep.renWinLive = true) (hok : report aa s w = .ok w') :
    ∀ a ∈ w'.rep.ephemeralActors, w.backend.nextId ≤ a := by
  obtain ⟨w1, w2, w4, h1, h2, h4, hw'⟩ := report_ok_decomp aa s w w' hlive hok
  have hf1 := configLoop_frame aa s _ w w1 h1
  have hf2 := rbLoop_frame s _ w1 w2 h2
  have hcbe : (collectStageGeometry s w2).backend = w2.backend := by
    rw [collectStageGeometry_eq]
  intro a ha
  have ha4 : a ∈ w4.rep.ephemeralActors := by
    rw [hw'] at ha
    exact ha
  have hge := display_ok_ephActors_ge s _ w4 h4 a ha4
  rw [hcbe, misc_nextId hf2.2.1, misc_nextId hf1.2] at hge
  exact hge

/-! ### Rubber-band entries across one report -/

theorem map_actor_of_map_dynKey {l1 l2 : List PerDynamicGeomInfo}
    (h : l1.map dynKey = l2.map dynKey) :
    l1.map PerDynamicGeomInfo.actor = l2.map PerDynamicGeomInfo.actor := by
  have h1 := congrArg (List.map (fun t : Nat × Int × Int × Vec3 × Vec3 => t.1)) h
  rw [List.map_map, List.map_map] at h1
  exact h1

theorem mem_of_map_dynKey {l1 l2 : List PerDynamicGeomInfo}
    (h : l1.map dynKey = l2.map dynKey) :
    ∀ info ∈ l1, ∃ info2 ∈ l2, dynKey info2 = dynKey info := by
  intro info hm
  have hk : dynKey info ∈ l2.map dynKey := by
    rw [← h]
    exact List.mem_map_of_mem dynKey hm
  obtain ⟨info2, h2, he⟩ := List.mem_map.mp hk
  exact ⟨info2, h2, he⟩

theorem actor_ne_of_get?_nodup (l : List PerDynamicGeomInfo)
    (hnd : (l.map PerDynamicGeomInfo.actor).Nodup)
    (j i : Nat) (hji : j ≠ i) (infoj infoi : PerDynamicGeomInfo)
    (hj : l.get? j = some infoj) (hi : l.get? i = some infoi) :
    infoj.actor ≠ infoi.actor := by
  intro hc
  apply hji
  have hmj : (l.map PerDynamicGeomInfo.actor).get? j = some infoj.actor := by
    rw [List.get?_map, hj]
    rfl
  have hmi : (l.map PerDynamicGeomInfo.actor).get? i = some infoi.actor := by
    rw [List.get?_map, hi]
    rfl
  obtain ⟨hjl, _⟩ := List.get?_eq_some.mp hmj
  exact List.get?_inj hjl hnd (by rw [hmj, hmi, hc])

/-- One successful `report`: every rubber-band entry is recomputed from the
current transforms of its two bodies and the new shape is pushed into the
entry's existing backend proxy. -/
theorem rb_report_entry (aa : Mat33 → Vec4) (s : SimState) (w w' : World)
    (hlive : w.rep.renWinLive = true)
    (hok : report aa s w = .ok w')
    (hnd : (w.rep.dynamicGeom.map PerDynamicGeomInfo.actor).Nodup)
    (hdynd : ∀ info ∈ w.rep.dynamicGeom,
      info.actor ∉ (w.rep.bodies.map PerBodyInfo.aList).flatten)
    (heph : ∀ info ∈ w.rep.dynamicGeom, info.actor ∉ w.rep.ephemeralActors)
    (hbound : ∀ info ∈ w.rep.dynamicGeom, info.actor < w.backend.nextId) :
    ∀ (i : Nat) (info : PerDynamicGeomInfo), w.rep.dynamicGeom.get? i = some info →
    ∀ X1 X2, s.getBodyTransform info.body1 = some X1 →
      s.getBodyTransform info.body2 = some X2 →
      w'.rep.dynamicGeom.get? i =
        some { info with
                 line := info.line.setEndpoints (X1.apply info.station1)
                   (X2.apply info.station2) } ∧
      getActor w'.backend info.actor =
        (getActor w.backend info.actor).map
          (fun a => { a with
                        mapperInput := some (implementGeometry
                          (info.line.setEndpoints (X1.apply info.station1)
                            (X2.apply info.station2))) }) := by
  intro i info hinfo X1 X2 hX1 hX2
  obtain ⟨w1, w2, w4, h1, h2, h4, hw'⟩ := report_ok_decomp aa s w w' hlive hok
  have hfa := configLoop_frame aa s _ w w1 h1
  have hmemI : info ∈ w.rep.dynamicGeom := List.get?_mem hinfo
  -- phase 1 leaves the rubber-band actor alone
  have hcfg : getActor w1.backend info.actor = getActor w.backend info.actor := by
    refine configLoop_getActor_notmem aa s info.actor (bodyIndexList s.nBodies) w w1 h1 ?_
    intro j hj pb hpb hmem
    obtain ⟨hj0, hjget⟩ := getBody_some_elim w.rep j pb hpb
    exact hdynd info hmemI (mem_aList_flatten w.rep j.toNat pb hjget info.actor hmem)
  -- phase 2 updates exactly this entry and its actor
  have hinfo1 : w1.rep.dynamicGeom.get? i = some info := by
    rw [hfa.1]
    exact hinfo
  have hilen : i < w1.rep.dynamicGeom.length := by
    obtain ⟨hlt, _⟩ := List.get?_eq_some.mp hinfo1
    exact hlt
  have hentry := rbLoop_entry s (List.range w1.rep.dynamicGeom.length) w1 w2 h2
    (List.nodup_range _) i (List.mem_range.mpr hilen) info hinfo1
    (fun j hj hji infoj hjg =>
      actor_ne_of_get?_nodup w.rep.dynamicGeom hnd j i hji infoj info
        (by rw [← hfa.1]; exact hjg) hinfo)
    X1 X2 hX1 hX2
  -- the collect step, the ephemeral pass and the tail leave both alone
  have hfb := rbLoop_frame s _ w1 w2 h2
  have hcbe : (collectStageGeometry s w2).backend = w2.backend := by
    rw [collectStageGeometry_eq]
  have hcdyn : (collectStageGeometry s w2).rep.dynamicGeom = w2.rep.dynamicGeom := by
    rw [collectStageGeometry_eq]
  have hceph : (collectStageGeometry s w2).rep.ephemeralActors
      = w.rep.ephemeralActors := by
    rw [collectStageGeometry_eq]
    show w2.rep.ephemeralActors = _
    rw [rbFrame_ephemeralActors hfb.1, hfa.1]
  have hdframe := display_ok_frame s _ w4 h4
  have hdyn4 : w4.rep.dynamicGeom = w2.rep.dynamicGeom := by
    rw [hdframe.2.1, hcdyn]
  have hga4 : getActor w4.backend info.actor = getActor w2.backend info.actor := by
    have hkeep := hdframe.2.2.2.2.2.2.2.2 info.actor ?_ ?_
    · rw [hkeep, hcbe]
    · rw [hceph]
      exact heph info hmemI
    · rw [hcbe, misc_nextId hfb.2.1, misc_nextId hfa.2]
      exact hbound info hmemI
  constructor
  · rw [hw']
    show w4.rep.dynamicGeom.get? i = _
    rw [hdyn4]
    exact hentry.1
  · rw [hw']
    show getActor (renderB (if w4.rep.cameraNeedsToBeReset then resetCameraB w4.backend
      else w4.backend)) info.actor = _
    rw [reportTail_getActor w4 info.actor, hga4, hentry.2, hcfg]

/-- Claim C2: on every successful `report s` from a live engine, each
rubber-band entry with bodies A, B and stations S1, S2 is recomputed: its
endpoints become `transform(A)·S1` and `transform(B)·S2` as of `s`, and the
rebuilt shape is pushed into the entry's existing backend proxy (same actor
id, only its mapper input changes) on every call, whether or not the bodies
moved; and across two consecutive reports where B's transform is unchanged,
the entry ends with the first endpoint following A's new transform and the
second consistent with B's unchanged one, still in the same proxy. -/
theorem C2_rubber_band_endpoints :
    (∀ (aa : Mat33 → Vec4) (s : SimState) (w w' : World),
      w.rep.renWinLive = true →
      report aa s w = .ok w' →
      (w.rep.dynamicGeom.map PerDynamicGeomInfo.actor).Nodup →
      (∀ info ∈ w.rep.dynamicGeom,
        info.actor ∉ (w.rep.bodies.map PerBodyInfo.aList).flatten) →
      (∀ info ∈ w.rep.dynamicGeom, info.actor ∉ w.rep.ephemeralActors) →
      (∀ info ∈ w.rep.dynamicGeom, info.actor < w.backend.nextId) →
      ∀ (i : Nat) (info : PerDynamicGeomInfo), w.rep.dynamicGeom.get? i = some info →
      ∀ X1 X2, s.getBodyTransform info.body1 = some X1 →
        s.getBodyTransform info.body2 = some X2 →
        w'.rep.dynamicGeom.get? i =
          some { info with
                   line := info.line.setEndpoints (X1.apply info.station1)
                     (X2.apply info.station2) } ∧
        getActor w'.backend info.actor =
          (getActor w.backend info.actor).map
            (fun a => { a with
                          mapperInput := some (implementGeometry
                            (info.line.setEndpoints (X1.apply info.station1)
                              (X2.apply info.station2))) })) ∧
    (∀ (aa : Mat33 → Vec4) (s1 s2 : SimState) (w wa wb : World),
      w.rep.renWinLive = true →
      report aa s1 w = .ok wa →
      report aa s2 wa = .ok wb →
      (w.rep.dynamicGeom.map PerDynamicGeomInfo.actor).Nodup →
      (∀ info ∈ w.rep.dynamicGeom,
        info.actor ∉ (w.rep.bodies.map PerBodyInfo.aList).flatten) →
      (∀ info ∈ w.rep.dynamicGeom, info.actor ∉ w.rep.ephemeralActors) →
      (∀ info ∈ w.rep.dynamicGeom, info.actor < w.backend.nextId) →
      ∀ (i : Nat) (info : PerDynamicGeomInfo), w.rep.dynamicGeom.get? i = some info →
      ∀ X1 X1' X2, s1.getBodyTransform info.body1 = some X1 →
        s2.getBodyTransform info.body1 = some X1' →
        s1.getBodyTransform info.body2 = some X2 →
        s2.getBodyTransform info.body2 = some X2 →
        wb.rep.dynamicGeom.get? i =
          some { info with
                   line := info.line.setEndpoints (X1'.apply info.station1)
                     (X2.apply info.station2) } ∧
        getActor wb.backend info.actor =
          (getActor w.backend info.actor).map
            (fun a => { a with
                          mapperInput := some (implementGeometry
                            (info.line.setEndpoints (X1'.apply info.station1)
                              (X2.apply info.station2))) })) := by
  constructor
  · intro aa s w w' hlive hok hnd hdynd heph hbound
    exact rb_report_entry aa s w w' hlive hok hnd hdynd heph hbound
  · intro aa s1 s2 w wa wb hlive hok1 hok2 hnd hdynd heph hbound i info hinfo
      X1 X1' X2 hX1 hX1' hX2 hX2'
    have hstate := report_ok_state aa s1 w wa hlive hok1
    have hmono : w.backend.nextId ≤ wa.backend.nextId := hstate.2.2.2.2
    have h1 := rb_report_entry aa s1 w wa hlive hok1 hnd hdynd heph hbound i info hinfo
      X1 X2 hX1 hX2
    -- the first call preserves every hypothesis needed for the second
    have hdk : wa.rep.dynamicGeom.map dynKey = w.rep.dynamicGeom.map dynKey :=
      hstate.2.2.2.1
    have hnd1 : (wa.rep.dynamicGeom.map PerDynamicGeomInfo.actor).Nodup := by
      rw [map_actor_of_map_dynKey hdk]
      exact hnd
    have htrans : ∀ info1 ∈ wa.rep.dynamicGeom,
        ∃ info0 ∈ w.rep.dynamicGeom, info0.actor = info1.actor := by
      intro info1 hm
      obtain ⟨info0, h0, he⟩ := mem_of_map_dynKey hdk info1 hm
      exact ⟨info0, h0, congrArg (fun t => t.1) he⟩
    have hdynd1 : ∀ info1 ∈ wa.rep.dynamicGeom,
        info1.actor ∉ (wa.rep.bodies.map PerBodyInfo.aList).flatten := by
      intro info1 hm
      obtain ⟨info0, h0, he⟩ := htrans info1 hm
      rw [hstate.2.1, ← he]
      exact hdynd info0 h0
    have heph1 : ∀ info1 ∈ wa.rep.dynamicGeom,
        info1.actor ∉ wa.rep.ephemeralActors := by
      intro info1 hm hc
      obtain ⟨info0, h0, he⟩ := htrans info1 hm
      have hge := report_ok_ephActors_ge aa s1 w wa hlive hok1 info1.actor hc
      have hlt := hbound info0 h0
      rw [he] at hlt
      omega
    have hbound1 : ∀ info1 ∈ wa.rep.dynamicGeom,
        info1.actor < wa.backend.nextId := by
      intro info1 hm
      obtain ⟨info0, h0, he⟩ := htrans info1 hm
      have hlt := hbound info0 h0
      rw [he] at hlt
      omega
    have h2 := rb_report_entry aa s2 wa wb hstate.1 hok2 hnd1 hdynd1 heph1 hbound1 i
      { info with
          line := info.line.setEndpoints (X1.apply info.station1)
            (X2.apply info.station2) }
      h1.1 X1' X2 hX1' hX2'
    -- overwriting the endpoints a second time collapses to the final ones
    have h21 : wb.rep.dynamicGeom.get? i =
        some { info with
                 line := info.line.setEndpoints (X1'.apply info.station1)
                   (X2.apply info.station2) } := h2.1
    have h22 : getActor wb.backend info.actor =
        (getActor wa.backend info.actor).map
          (fun a => { a with
                        mapperInput := some (implementGeometry
                          (info.line.setEndpoints (X1'.apply info.station1)
                            (X2.apply info.station2))) }) := h2.2
    refine ⟨h21, ?_⟩
    rw [h22, h1.2]
    cases getActor w.backend info.actor with
    | none => rfl
    | some a => rfl

theorem C2_rubber_band_endpoints_witness :
    ((okWorld (report witnessAA witnessStateC2 witnessWorldC2)).bind
      (fun u => (u.rep.dynamicGeom.get? 0).map
        (fun info1 => (info1, (getActor u.backend 0).map Actor.mapperInput)))) =
      some (witnessInfoC2Updated,
        some (some (implementGeometry witnessInfoC2Updated.line))) := by
  cases hrep : report witnessAA witnessStateC2 witnessWorldC2 with
  | error e =>
    have hsome : (okWorld (report witnessAA witnessStateC2 witnessWorldC2)).isSome
        = true := by decide
    rw [hrep] at hsome
    simp [okWorld] at hsome
  | ok w' =>
    have h := C2_rubber_band_endpoints.1 witnessAA witnessStateC2 witnessWorldC2 w'
      (by decide) hrep (by decide) (by decide) (by decide) (by decide)
      0 witnessInfoC2 (by decide)
      Transform.identity witnessXC2 (by decide) (by decide)
    have h1 : w'.rep.dynamicGeom.get? 0 = some witnessInfoC2Updated := h.1
    have h2 : getActor w'.backend 0 =
        (getActor witnessWorldC2.backend 0).map
          (fun a => { a with
                        mapperInput := some (implementGeometry
                          witnessInfoC2Updated.line) }) := h.2
    show ((w'.rep.dynamicGeom.get? 0).map
      (fun info1 => (info1, (getActor w'.backend 0).map Actor.mapperInput))) = _
    rw [h1, h2]
    rfl

/-! ### Teardown accounting (deletePointers and clone) -/

theorem deleteFold_deletions :
    ∀ (L : List Nat) (be : Backend), (deleteFold L be).deletions = be.deletions ++ L
  | [], be => (List.append_nil be.deletions).symm
  | a :: L, be => by
    unfold deleteFold at deleteFold_deletions ⊢
    rw [List.foldl_cons, deleteFold_deletions L]
    simp [deleteActor]

theorem deleteFold_append (L1 L2 : List Nat) (be : Backend) :
    deleteFold (L1 ++ L2) be = deleteFold L2 (deleteFold L1 be) := by
  unfold deleteFold
  rw [List.foldl_append]

theorem deleteFold_live_mem (p : Nat × Actor) :
    ∀ (L : List Nat) (be : Backend),
      p ∈ (deleteFold L be).live → p ∈ be.live ∧ p.1 ∉ L
  | [], _, h => ⟨h, List.not_mem_nil p.1⟩
  | a :: L, be, h => by
    unfold deleteFold at deleteFold_live_mem h
    rw [List.foldl_cons] at h
    obtain ⟨h1, h2⟩ := deleteFold_live_mem p L (deleteActor a be) h
    have h3 := List.mem_filter.mp h1
    refine ⟨h3.1, ?_⟩
    intro hc
    rcases List.mem_cons.mp hc with hc | hc
    · exact (of_decide_eq_true h3.2) hc
    · exact h2 hc

theorem destroyFold_live_notmem (p : Nat × Actor) :
    ∀ (L : List Nat) (be : Backend),
      p ∈ (destroyFold L be).live → p ∈ be.live ∧ p.1 ∉ L
  | [], _, h => ⟨h, List.not_mem_nil p.1⟩
  | a :: L, be, h => by
    unfold destroyFold at destroyFold_live_notmem h
    rw [List.foldl_cons] at h
    obtain ⟨h1, h2⟩ := destroyFold_live_notmem p L (deleteActor a (removeActor a be)) h
    have h3 := List.mem_filter.mp h1
    refine ⟨h3.1, ?_⟩
    intro hc
    rcases List.mem_cons.mp hc with hc | hc
    · exact (of_decide_eq_true h3.2) hc
    · exact h2 hc

theorem bodiesFold_eq :
    ∀ (bodies : List PerBodyInfo) (be : Backend),
      bodies.foldl (fun be pb => pb.aList.foldl (fun be aid => deleteActor aid be) be) be
        = deleteFold ((bodies.map PerBodyInfo.aList).flatten) be
  | [], _ => rfl
  | pb :: rest, be => by
    rw [List.foldl_cons, List.map_cons, List.flatten_cons, bodiesFold_eq rest,
      deleteFold_append]
    rfl

theorem dynFold_eq (dyn : List PerDynamicGeomInfo) (be : Backend) :
    dyn.foldl (fun be info => deleteActor info.actor be) be
      = deleteFold (dyn.map PerDynamicGeomInfo.actor) be := by
  unfold deleteFold
  rw [List.foldl_map]

theorem deletePointersBackend_eq (r : VTKReporterRep) (be : Backend) :
    deletePointersBackend r be =
      { destroyFold r.ephemeralActors
          (deleteFold (r.dynamicGeom.map PerDynamicGeomInfo.actor)
            (deleteFold ((r.bodies.map PerBodyInfo.aList).flatten) be)) with
        scene := [] } := by
  unfold deletePointersBackend
  dsimp only
  rw [bodiesFold_eq, dynFold_eq]
  rfl

/-- `deletePointers` records exactly one release for every tracked actor (in
order: decoration, rubber-band, ephemeral), appended to whatever releases
already happened. -/
theorem deletePointersBackend_deletions (r : VTKReporterRep) (be : Backend) :
    (deletePointersBackend r be).deletions = be.deletions ++ allTracked r := by
  rw [deletePointersBackend_eq]
  show (destroyFold r.ephemeralActors
    (deleteFold (r.dynamicGeom.map PerDynamicGeomInfo.actor)
      (deleteFold ((r.bodies.map PerBodyInfo.aList).flatten) be))).deletions = _
  rw [destroyFold_deletions, deleteFold_deletions, deleteFold_deletions]
  simp [allTracked, List.append_assoc]

theorem deletePointers_live_nil (w : World)
    (hlivetr : ∀ p ∈ w.backend.live, p.1 ∈ allTracked w.rep) :
    (deletePointers w).backend.live = [] := by
  rw [List.eq_nil_iff_forall_not_mem]
  intro p hp
  have hp' : p ∈ (deletePointersBackend w.rep w.backend).live := hp
  rw [deletePointersBackend_eq] at hp'
  obtain ⟨hp2, hneph⟩ := destroyFold_live_notmem p _ _ hp'
  obtain ⟨hp3, hndyn⟩ := deleteFold_live_mem p _ _ hp2
  obtain ⟨hp4, hnflat⟩ := deleteFold_live_mem p _ _ hp3
  have htr := hlivetr p hp4
  unfold allTracked at htr
  rcases List.mem_append.mp htr with h1 | h1
  · rcases List.mem_append.mp h1 with h2 | h2
    · exact hnflat h2
    · exact hndyn h2
  · exact hneph h1

/-- Claim C8 (amended): tearing one engine down releases every tracked proxy
exactly once — the live store drains, the scene empties, the engine enters
the Disposed state, and under the single-ownership accounting hypotheses
every allocated id ends with exactly one recorded release.  But `clone` is a
memberwise copy sharing the original's actor handles (it is the identity on
the reporter state), so a copy does duplicate backend resource ownership and
tearing both down double-releases (see the counterexample). -/
theorem C8_teardown_releases_each_once (w : World)
    (hnd : (allTracked w.rep).Nodup)
    (hlivetr : ∀ p ∈ w.backend.live, p.1 ∈ allTracked w.rep)
    (hacct : ∀ aid : Nat, aid < w.backend.nextId →
      (aid ∈ allTracked w.rep ∧ w.backend.deletions.count aid = 0) ∨
      (aid ∉ allTracked w.rep ∧ w.backend.deletions.count aid = 1)) :
    (deletePointers w).rep.renWinLive = false ∧
    (deletePointers w).backend.live = [] ∧
    (deletePointers w).backend.scene = [] ∧
    (∀ aid : Nat, aid < w.backend.nextId →
      (deletePointers w).backend.deletions.count aid = 1) ∧
    (∀ r : VTKReporterRep, clone r = r) := by
  refine ⟨rfl, deletePointers_live_nil w hlivetr, rfl, ?_, fun r => rfl⟩
  intro aid hlt
  have hdel : (deletePointers w).backend.deletions
      = w.backend.deletions ++ allTracked w.rep :=
    deletePointersBackend_deletions w.rep w.backend
  rw [hdel, List.count_append]
  rcases hacct aid hlt with ⟨hmem, hc⟩ | ⟨hnmem, hc⟩
  · rw [hc, List.count_eq_one_of_mem hnd hmem]
  · rw [hc, List.count_eq_zero.mpr hnmem]

theorem C8_teardown_releases_each_once_witness :
    (deletePointers witnessWorldC8).rep.renWinLive = false ∧
    (deletePointers witnessWorldC8).backend.live = [] ∧
    (deletePointers witnessWorldC8).backend.scene = [] ∧
    (deletePointers witnessWorldC8).backend.deletions.count 0 = 1 := by
  have h := C8_teardown_releases_each_once witnessWorldC8 (by decide) (by decide)
    (by decide)
  exact ⟨h.1, h.2.1, h.2.2.1, h.2.2.2.1 0 (by decide)⟩

/-- The spec's exactly-once teardown sentence is false for copies: `clone`
is a memberwise copy sharing actor handles, so tearing down the original and
then the copy over the shared backend releases actor 0 twice. -/
theorem C8_clone_shares_handles_counterexample :
    clone witnessWorldC8.rep = witnessWorldC8.rep ∧
    (deletePointersBackend witnessWorldC8.rep witnessWorldC8.backend).deletions.count 0
      = 1 ∧
    (deletePointersBackend (clone witnessWorldC8.rep)
      (deletePointersBackend witnessWorldC8.rep witnessWorldC8.backend)).deletions.count 0
      = 2 := by
  decide

end Simbody
